import Mathlib

/-!
# Intel MID I2S / IFX ALSA hardware interface

A shallow embedding of `sound/pci/intel_mid_i2s/intel_alsa_ifx_hw_interface.c`:
the channel registry (`s_streamifx_status`), the open/close arbitration, the
request issuance and the DMA completion handlers.

Conventions of the embedding.

* The global `s_streamifx_status` is passed in and returned explicitly.
* A pointer argument that the code tests against `NULL` is an `Option`.
* The handle `ssp_handle` is a pointer value, `0` being `NULL`.
* Every call that leaves the file (the Intel MID I2S driver, the ALSA core, the
  spin lock) is recorded, in program order, in the `trace` of the result; the
  values those calls return are read from an `Hw` record of answers.
* `WARN`, `WARN_ON`, `pr_debug` and `pr_err` only log and are left out.
* A C `int` and an address are 32 bits wide, as on the 32-bit x86 platform the
  driver is built for: the slice arithmetic of the request functions is taken
  modulo `2 ^ 32`, and a value handed to the driver is recorded by its 32 bits.
-/

namespace IntelAlsaIfx

/-! ## Constants declared outside the two source files -/

/-- Modelled from the spec: the `Busy` error kind. The constant `EBUSY` comes from
the kernel's errno header, which is not among the source files; its value there
is 16. -/
def EBUSY : Int := 16

/-- Modelled from the spec: the `InvalidArgument` error kind. The constant
`EINVAL` comes from the kernel's errno header, which is not among the source
files; its value there is 22. -/
def EINVAL : Int := 22

/-- Modelled from the spec: direction `playback` of a stream slot. The constant is
declared in the ALSA headers, which are not among the source files. -/
def SNDRV_PCM_STREAM_PLAYBACK : Int := 0

/-- Modelled from the spec: direction `capture` of a stream slot. The constant is
declared in the ALSA headers, which are not among the source files. -/
def SNDRV_PCM_STREAM_CAPTURE : Int := 1

/-- Modelled from the spec: the status flags STARTED, RUNNING and DROPPED of a
stream slot. Their bit numbers are enumerators of the private header
`intel_alsa_ifx_hw_private.h`, which is not among the source files, so they are
taken as parameters. -/
structure ssp_stream_bits where
  INTEL_ALSA_SSP_STREAM_STARTED : Nat
  INTEL_ALSA_SSP_STREAM_RUNNING : Nat
  INTEL_ALSA_SSP_STREAM_DROPPED : Nat
deriving DecidableEq, Repr

/-- The three enumerators are pairwise different bit numbers. -/
def ssp_stream_bits.distinct (b : ssp_stream_bits) : Prop :=
  b.INTEL_ALSA_SSP_STREAM_STARTED ≠ b.INTEL_ALSA_SSP_STREAM_RUNNING ∧
  b.INTEL_ALSA_SSP_STREAM_STARTED ≠ b.INTEL_ALSA_SSP_STREAM_DROPPED ∧
  b.INTEL_ALSA_SSP_STREAM_RUNNING ≠ b.INTEL_ALSA_SSP_STREAM_DROPPED

instance (b : ssp_stream_bits) : Decidable b.distinct := by
  unfold ssp_stream_bits.distinct
  infer_instance

/-- Commands of `intel_mid_i2s_command` that the file uses. -/
inductive ssp_cmd where
  | SSP_CMD_SET_HW_CONFIG
  | SSP_CMD_ALLOC_TX
  | SSP_CMD_ALLOC_RX
  | SSP_CMD_FREE_TX
  | SSP_CMD_FREE_RX
  | SSP_CMD_ENABLE_SSP
deriving DecidableEq, Repr

/-! ## Kernel bit operations on an `unsigned long` -/

/-- Modelled from the spec: `test_bit(nr, addr)`, the value of bit `nr`. -/
def test_bit (nr : Nat) (w : Nat) : Bool := w.testBit nr

/-- Modelled from the spec: `set_bit(nr, addr)`, the word with bit `nr` set. -/
def set_bit (nr : Nat) (w : Nat) : Nat := w ||| (1 <<< nr)

/-- Modelled from the spec: `clear_bit(nr, addr)`, the word with bit `nr`
cleared. -/
def clear_bit (nr : Nat) (w : Nat) : Nat := w ^^^ (w &&& (1 <<< nr))

/-- Modelled from the spec: atomic test-and-set, the old value of the bit and the
new word. -/
def test_and_set_bit (nr : Nat) (w : Nat) : Bool × Nat := (test_bit nr w, set_bit nr w)

/-- Modelled from the spec: atomic test-and-clear, the old value of the bit and
the new word. -/
def test_and_clear_bit (nr : Nat) (w : Nat) : Bool × Nat := (test_bit nr w, clear_bit nr w)

/-! ## Data model -/

/-- Modelled from the spec: the ping-pong buffer descriptor of a stream slot
(`struct intel_alsa_ssp_dma_buf`, declared in a header that is not among the
source files): base address, period length in bytes, period count, and the two
ring indices, all of them non-negative. -/
structure intel_alsa_ssp_dma_buf where
  addr : Nat
  length : Nat
  period_req_index : Nat
  period_cb_index : Nat
  period_index_max : Nat
deriving DecidableEq, Repr

/-- The fields of `struct snd_pcm_substream` that the file reads. -/
structure snd_pcm_substream where
  stream : Int
deriving DecidableEq, Repr

/-- The fields of `struct intel_alsa_ifx_stream_info` that the file reads or
writes. -/
structure intel_alsa_ifx_stream_info where
  device_id : Nat
  stream_index : Nat
  substream : snd_pcm_substream
  dma_slot : intel_alsa_ssp_dma_buf
  stream_status : Nat
deriving DecidableEq, Repr

/-- The registry `struct intel_alsa_stream_status` (the static
`s_streamifx_status`): the handle of the opened channel and the bit field of
open streams. Taking and releasing its spin lock are events of the trace. -/
structure intel_alsa_stream_status where
  ssp_handle : Nat
  stream_info : Nat
deriving DecidableEq, Repr

/-- A call that leaves the file, with its arguments. -/
inductive Event where
  | spin_lock
  | spin_unlock
  | intel_mid_i2s_open
  | intel_mid_i2s_close (handle : Nat)
  | intel_mid_i2s_command (handle : Nat) (cmd : ssp_cmd) (arg : Option Nat)
  | intel_mid_i2s_set_wr_cb (handle : Nat)
  | intel_mid_i2s_set_rd_cb (handle : Nat)
  | intel_mid_i2s_wr_req (handle : Nat) (addr : Nat) (len : Nat)
      (param : intel_alsa_ifx_stream_info)
  | intel_mid_i2s_rd_req (handle : Nat) (addr : Nat) (len : Nat)
      (param : intel_alsa_ifx_stream_info)
  | snd_pcm_period_elapsed (substream : snd_pcm_substream)
deriving DecidableEq, Repr

/-- The answers of the Intel MID I2S driver during one call into the file. Each
answer may depend on the arguments of the call; no entry point of the file makes
the same driver call twice with the same arguments. -/
structure Hw where
  intel_mid_i2s_open : Nat
  intel_mid_i2s_command : Nat → ssp_cmd → Int
  intel_mid_i2s_set_wr_cb : Nat → Int
  intel_mid_i2s_set_rd_cb : Nat → Int
  intel_mid_i2s_wr_req : Nat → Nat → Nat → Int
  intel_mid_i2s_rd_req : Nat → Nat → Nat → Int

/-- What one call into the file leaves behind: the returned value, the registry,
the stream structure the argument points to, and the calls made. -/
structure Result where
  ret : Int
  status : intel_alsa_stream_status
  str_info : Option intel_alsa_ifx_stream_info
  trace : List Event
deriving DecidableEq, Repr

/-! ## The functions of the file -/

/-- The registry after `intel_alsa_reset_ifx_status` (lines 35-40). -/
def intel_alsa_reset_ifx_status : intel_alsa_stream_status :=
  { ssp_handle := 0, stream_info := 0 }

/-- Lines 133-159 of `intel_alsa_ifx_open`: the allocation of the DMA channel of
the stream's direction. -/
def intel_alsa_ifx_open_alloc (hw : Hw) (st : intel_alsa_stream_status)
    (s : intel_alsa_ifx_stream_info) (tr : List Event) : Result :=
  if s.substream.stream = SNDRV_PCM_STREAM_PLAYBACK then
    if hw.intel_mid_i2s_command st.ssp_handle ssp_cmd.SSP_CMD_ALLOC_TX ≠ 0 then
      { ret := -EBUSY, status := st, str_info := some s,
        trace := tr ++ [Event.intel_mid_i2s_command st.ssp_handle ssp_cmd.SSP_CMD_ALLOC_TX none] }
    else
      { ret := 0, status := st, str_info := some s,
        trace := tr ++ [Event.intel_mid_i2s_command st.ssp_handle ssp_cmd.SSP_CMD_ALLOC_TX none] }
  else if s.substream.stream = SNDRV_PCM_STREAM_CAPTURE then
    if hw.intel_mid_i2s_command st.ssp_handle ssp_cmd.SSP_CMD_ALLOC_RX ≠ 0 then
      { ret := -EBUSY, status := st, str_info := some s,
        trace := tr ++ [Event.intel_mid_i2s_command st.ssp_handle ssp_cmd.SSP_CMD_ALLOC_RX none] }
    else
      { ret := 0, status := st, str_info := some s,
        trace := tr ++ [Event.intel_mid_i2s_command st.ssp_handle ssp_cmd.SSP_CMD_ALLOC_RX none] }
  else
    { ret := -EINVAL, status := st, str_info := some s, trace := tr }

/-- Lines 112-131 of `intel_alsa_ifx_open` followed by the allocation: when
`open_ifx` is set the channel is opened and configured and the two completion
callbacks are installed, outside the lock. -/
def intel_alsa_ifx_open_acquire (hw : Hw) (st : intel_alsa_stream_status)
    (s : intel_alsa_ifx_stream_info) (device_id : Nat) (open_ifx : Bool)
    (tr : List Event) : Result :=
  if open_ifx = true then
    let h := hw.intel_mid_i2s_open
    let st1 : intel_alsa_stream_status := { st with ssp_handle := h }
    let tr1 := tr ++ [Event.intel_mid_i2s_open,
      Event.intel_mid_i2s_command h ssp_cmd.SSP_CMD_SET_HW_CONFIG (some device_id),
      Event.intel_mid_i2s_set_wr_cb h]
    if hw.intel_mid_i2s_set_wr_cb h ≠ 0 then
      { ret := -EINVAL, status := st1, str_info := some s, trace := tr1 }
    else
      let tr2 := tr1 ++ [Event.intel_mid_i2s_set_rd_cb h]
      if hw.intel_mid_i2s_set_rd_cb h ≠ 0 then
        { ret := -EINVAL, status := st1, str_info := some s, trace := tr2 }
      else
        intel_alsa_ifx_open_alloc hw st1 s tr2
  else
    intel_alsa_ifx_open_alloc hw st s tr

/-- The function `intel_alsa_ifx_open` (lines 51-160). -/
def intel_alsa_ifx_open (hw : Hw) (st : intel_alsa_stream_status)
    (param : Option intel_alsa_ifx_stream_info) : Result :=
  match param with
  | none => { ret := -EINVAL, status := st, str_info := none, trace := [] }
  | some s0 =>
    let device_id := s0.device_id
    let s : intel_alsa_ifx_stream_info :=
      { s0 with dma_slot := { s0.dma_slot with period_req_index := 0, period_cb_index := 0 } }
    if st.stream_info = 0 then
      let st1 : intel_alsa_stream_status :=
        { st with stream_info := set_bit s.stream_index st.stream_info }
      intel_alsa_ifx_open_acquire hw st1 s device_id true [Event.spin_lock, Event.spin_unlock]
    else if (s.stream_index = 0 ∧ test_bit 1 st.stream_info = true) ∨
        (s.stream_index = 1 ∧ test_bit 0 st.stream_info = true) then
      let st1 : intel_alsa_stream_status :=
        { st with stream_info := set_bit s.stream_index st.stream_info }
      intel_alsa_ifx_open_acquire hw st1 s device_id false [Event.spin_lock, Event.spin_unlock]
    else
      { ret := -EBUSY, status := st, str_info := some s,
        trace := [Event.spin_lock, Event.spin_unlock] }

/-- The function `intel_alsa_ifx_close` (lines 171-240). It reads no answer of
the driver: the value of the FREE command is ignored and `intel_mid_i2s_close`
returns nothing. -/
def intel_alsa_ifx_close (st : intel_alsa_stream_status)
    (param : Option intel_alsa_ifx_stream_info) : Result :=
  match param with
  | none => { ret := -EINVAL, status := st, str_info := none, trace := [] }
  | some s =>
    if st.ssp_handle = 0 then
      { ret := -EINVAL, status := st, str_info := some s, trace := [] }
    else if st.stream_info = 0 then
      { ret := -EBUSY, status := st, str_info := some s,
        trace := [Event.spin_lock, Event.spin_unlock] }
    else
      let st1 : intel_alsa_stream_status :=
        { st with stream_info := clear_bit s.stream_index st.stream_info }
      let close_ifx : Bool := decide (st1.stream_info = 0)
      let tr := [Event.spin_lock, Event.spin_unlock]
      if s.substream.stream = SNDRV_PCM_STREAM_PLAYBACK ∨
          s.substream.stream = SNDRV_PCM_STREAM_CAPTURE then
        let cmd := if s.substream.stream = SNDRV_PCM_STREAM_PLAYBACK
          then ssp_cmd.SSP_CMD_FREE_TX else ssp_cmd.SSP_CMD_FREE_RX
        let tr1 := tr ++ [Event.intel_mid_i2s_command st1.ssp_handle cmd none]
        if close_ifx = true then
          { ret := 0, status := { st1 with ssp_handle := 0 }, str_info := some s,
            trace := tr1 ++ [Event.intel_mid_i2s_close st1.ssp_handle] }
        else
          { ret := 0, status := st1, str_info := some s, trace := tr1 }
      else
        { ret := -EINVAL, status := st1, str_info := some s, trace := tr }

/-- Modelled from the spec: the control commands of `intel_alsa_ifx_control`,
enumerators of a header that is not among the source files; `other` stands for
every value that is none of the four. -/
inductive ssp_ctrl where
  | INTEL_ALSA_SSP_CTRL_SND_OPEN
  | INTEL_ALSA_SSP_CTRL_SND_PAUSE
  | INTEL_ALSA_SSP_CTRL_SND_RESUME
  | INTEL_ALSA_SSP_CTRL_SND_CLOSE
  | other
deriving DecidableEq, Repr

/-- The function `intel_alsa_ifx_control` (lines 251-278). The value of
`intel_alsa_ifx_close` is not assigned to `retval`. -/
def intel_alsa_ifx_control (hw : Hw) (st : intel_alsa_stream_status) (command : ssp_ctrl)
    (param : Option intel_alsa_ifx_stream_info) : Result :=
  match command with
  | ssp_ctrl.INTEL_ALSA_SSP_CTRL_SND_OPEN => intel_alsa_ifx_open hw st param
  | ssp_ctrl.INTEL_ALSA_SSP_CTRL_SND_PAUSE =>
    { ret := 0, status := st, str_info := param, trace := [] }
  | ssp_ctrl.INTEL_ALSA_SSP_CTRL_SND_RESUME =>
    { ret := 0, status := st, str_info := param, trace := [] }
  | ssp_ctrl.INTEL_ALSA_SSP_CTRL_SND_CLOSE =>
    { intel_alsa_ifx_close st param with ret := 0 }
  | ssp_ctrl.other => { ret := -EINVAL, status := st, str_info := param, trace := [] }

/-- The 32 bits that a C `int`, or an address of the platform, keeps of a value. -/
def wrap32 (x : Nat) : Nat := x % 4294967296

/-- Lines 301 and 350: `tx_length = sb_tx->length`, the period length held in a C
`int`, given by its 32 bits. -/
def slice_length (sb : intel_alsa_ssp_dma_buf) : Nat := wrap32 sb.length

/-- Lines 302 and 351: `sb_tx->addr + tx_length * sb_tx->period_req_index`. The
product is formed in 32-bit `int` arithmetic and the sum in the 32-bit address
arithmetic of the platform; a negative `int` added to a 32-bit address gives the
same 32 bits as its two's complement pattern. -/
def slice_address (sb : intel_alsa_ssp_dma_buf) : Nat :=
  wrap32 (sb.addr + wrap32 (slice_length sb * sb.period_req_index))

/-- The function `intel_alsa_ifx_dma_playback_req` (lines 289-325). -/
def intel_alsa_ifx_dma_playback_req (b : ssp_stream_bits) (hw : Hw)
    (st : intel_alsa_stream_status) (s : intel_alsa_ifx_stream_info) : Result :=
  if st.ssp_handle = 0 then
    { ret := -EINVAL, status := st, str_info := some s, trace := [] }
  else
    let sb_tx := s.dma_slot
    let tx_length := slice_length sb_tx
    let tx_addr := slice_address sb_tx
    let req := Event.intel_mid_i2s_wr_req st.ssp_handle tx_addr tx_length s
    if hw.intel_mid_i2s_wr_req st.ssp_handle tx_addr tx_length = 0 then
      let tr := [req, Event.intel_mid_i2s_command st.ssp_handle ssp_cmd.SSP_CMD_ENABLE_SSP none]
      let ts := test_and_set_bit b.INTEL_ALSA_SSP_STREAM_RUNNING s.stream_status
      let s1 : intel_alsa_ifx_stream_info := { s with stream_status := ts.2 }
      if ts.1 = true then
        { ret := -EBUSY, status := st, str_info := some s1, trace := tr }
      else if sb_tx.period_req_index + 1 ≥ sb_tx.period_index_max then
        { ret := 0, status := st,
          str_info := some { s1 with dma_slot := { sb_tx with period_req_index := 0 } },
          trace := tr }
      else
        { ret := 0, status := st,
          str_info := some { s1 with dma_slot :=
            { sb_tx with period_req_index := sb_tx.period_req_index + 1 } },
          trace := tr }
    else
      { ret := -EINVAL, status := st, str_info := some s, trace := [req] }

/-- The function `intel_alsa_ifx_dma_capture_req` (lines 336-377). -/
def intel_alsa_ifx_dma_capture_req (b : ssp_stream_bits) (hw : Hw)
    (st : intel_alsa_stream_status) (s : intel_alsa_ifx_stream_info) : Result :=
  if st.ssp_handle = 0 then
    { ret := -EINVAL, status := st, str_info := some s, trace := [] }
  else
    let sb_rx := s.dma_slot
    let rx_length := slice_length sb_rx
    let rx_addr := slice_address sb_rx
    let req := Event.intel_mid_i2s_rd_req st.ssp_handle rx_addr rx_length s
    if hw.intel_mid_i2s_rd_req st.ssp_handle rx_addr rx_length = 0 then
      let tr := [req, Event.intel_mid_i2s_command st.ssp_handle ssp_cmd.SSP_CMD_ENABLE_SSP none]
      let ts := test_and_set_bit b.INTEL_ALSA_SSP_STREAM_RUNNING s.stream_status
      let s1 : intel_alsa_ifx_stream_info := { s with stream_status := ts.2 }
      if ts.1 = true then
        { ret := -EBUSY, status := st, str_info := some s1, trace := tr }
      else if sb_rx.period_req_index + 1 ≥ sb_rx.period_index_max then
        { ret := 0, status := st,
          str_info := some { s1 with dma_slot := { sb_rx with period_req_index := 0 } },
          trace := tr }
      else
        { ret := 0, status := st,
          str_info := some { s1 with dma_slot :=
            { sb_rx with period_req_index := sb_rx.period_req_index + 1 } },
          trace := tr }
    else
      { ret := -EINVAL, status := st, str_info := some s, trace := [req] }

/-- The function `intel_alsa_ifx_transfer_data` (lines 387-410). The C function
returns nothing: `ret` holds the final value of its local `status`, which the
function drops. -/
def intel_alsa_ifx_transfer_data (b : ssp_stream_bits) (hw : Hw)
    (st : intel_alsa_stream_status) (s : intel_alsa_ifx_stream_info) : Result :=
  if s.substream.stream = SNDRV_PCM_STREAM_PLAYBACK then
    intel_alsa_ifx_dma_playback_req b hw st s
  else if s.substream.stream = SNDRV_PCM_STREAM_CAPTURE then
    intel_alsa_ifx_dma_capture_req b hw st s
  else
    { ret := -EINVAL, status := st, str_info := some s, trace := [] }

/-- Lines 471-495 of `intel_alsa_ifx_dma_playback_complete`: with `call_back` set
the indices are reset or the completion index advances, the next write request is
launched (its value is dropped) and the ALSA core is told that a period has
elapsed. -/
def intel_alsa_ifx_dma_playback_complete_tail (b : ssp_stream_bits) (hw : Hw)
    (st : intel_alsa_stream_status) (s : intel_alsa_ifx_stream_info)
    (call_back reset_index : Bool) : Result :=
  if call_back = true then
    let sb_tx := s.dma_slot
    let sb_tx1 : intel_alsa_ssp_dma_buf :=
      if reset_index = true then
        { sb_tx with period_cb_index := 0, period_req_index := 0 }
      else if sb_tx.period_cb_index + 1 ≥ sb_tx.period_index_max then
        { sb_tx with period_cb_index := 0 }
      else
        { sb_tx with period_cb_index := sb_tx.period_cb_index + 1 }
    let r := intel_alsa_ifx_dma_playback_req b hw st { s with dma_slot := sb_tx1 }
    { ret := 0, status := r.status, str_info := r.str_info,
      trace := r.trace ++ [Event.snd_pcm_period_elapsed s.substream] }
  else
    { ret := 0, status := st, str_info := some s, trace := [] }

/-- The function `intel_alsa_ifx_dma_playback_complete` (lines 426-496). -/
def intel_alsa_ifx_dma_playback_complete (b : ssp_stream_bits) (hw : Hw)
    (st : intel_alsa_stream_status) (param : Option intel_alsa_ifx_stream_info) : Result :=
  match param with
  | none => { ret := -EBUSY, status := st, str_info := none, trace := [] }
  | some s =>
    let running := test_and_clear_bit b.INTEL_ALSA_SSP_STREAM_RUNNING s.stream_status
    if running.1 = true then
      let dropped := test_and_clear_bit b.INTEL_ALSA_SSP_STREAM_DROPPED running.2
      let s1 : intel_alsa_ifx_stream_info := { s with stream_status := dropped.2 }
      if dropped.1 = true then
        if test_bit b.INTEL_ALSA_SSP_STREAM_STARTED dropped.2 = true then
          intel_alsa_ifx_dma_playback_complete_tail b hw st s1 true true
        else
          intel_alsa_ifx_dma_playback_complete_tail b hw st s1 false false
      else
        if test_bit b.INTEL_ALSA_SSP_STREAM_STARTED dropped.2 = true then
          intel_alsa_ifx_dma_playback_complete_tail b hw st s1 true false
        else
          { ret := -EBUSY, status := st, str_info := some s1, trace := [] }
    else
      { ret := -EBUSY, status := st,
        str_info := some { s with stream_status := running.2 }, trace := [] }

/-- Lines 558-582 of `intel_alsa_ifx_dma_capture_complete`: as for playback, with
a read request. -/
def intel_alsa_ifx_dma_capture_complete_tail (b : ssp_stream_bits) (hw : Hw)
    (st : intel_alsa_stream_status) (s : intel_alsa_ifx_stream_info)
    (call_back reset_index : Bool) : Result :=
  if call_back = true then
    let sb_rx := s.dma_slot
    let sb_rx1 : intel_alsa_ssp_dma_buf :=
      if reset_index = true then
        { sb_rx with period_cb_index := 0, period_req_index := 0 }
      else if sb_rx.period_cb_index + 1 ≥ sb_rx.period_index_max then
        { sb_rx with period_cb_index := 0 }
      else
        { sb_rx with period_cb_index := sb_rx.period_cb_index + 1 }
    let r := intel_alsa_ifx_dma_capture_req b hw st { s with dma_slot := sb_rx1 }
    { ret := 0, status := r.status, str_info := r.str_info,
      trace := r.trace ++ [Event.snd_pcm_period_elapsed s.substream] }
  else
    { ret := 0, status := st, str_info := some s, trace := [] }

/-- The function `intel_alsa_ifx_dma_capture_complete` (lines 512-582). -/
def intel_alsa_ifx_dma_capture_complete (b : ssp_stream_bits) (hw : Hw)
    (st : intel_alsa_stream_status) (param : Option intel_alsa_ifx_stream_info) : Result :=
  match param with
  | none => { ret := -EBUSY, status := st, str_info := none, trace := [] }
  | some s =>
    let running := test_and_clear_bit b.INTEL_ALSA_SSP_STREAM_RUNNING s.stream_status
    if running.1 = true then
      let dropped := test_and_clear_bit b.INTEL_ALSA_SSP_STREAM_DROPPED running.2
      let s1 : intel_alsa_ifx_stream_info := { s with stream_status := dropped.2 }
      if dropped.1 = true then
        if test_bit b.INTEL_ALSA_SSP_STREAM_STARTED dropped.2 = true then
          intel_alsa_ifx_dma_capture_complete_tail b hw st s1 true true
        else
          intel_alsa_ifx_dma_capture_complete_tail b hw st s1 false false
      else
        if test_bit b.INTEL_ALSA_SSP_STREAM_STARTED dropped.2 = true then
          intel_alsa_ifx_dma_capture_complete_tail b hw st s1 true false
        else
          { ret := -EBUSY, status := st, str_info := some s1, trace := [] }
    else
      { ret := -EBUSY, status := st,
        str_info := some { s with stream_status := running.2 }, trace := [] }

/-! ## Observations on traces and sequences of calls -/

/-- Number of times the physical channel is acquired (`intel_mid_i2s_open`). -/
def acquisitions (tr : List Event) : Nat :=
  tr.countP fun e => match e with
    | Event.intel_mid_i2s_open => true
    | _ => false

/-- Number of times the physical channel is released (`intel_mid_i2s_close`). -/
def releases (tr : List Event) : Nat :=
  tr.countP fun e => match e with
    | Event.intel_mid_i2s_close _ => true
    | _ => false

/-- Number of calls into the Intel MID I2S driver, whatever the call. -/
def driver_calls (tr : List Event) : Nat :=
  tr.countP fun e => match e with
    | Event.spin_lock => false
    | Event.spin_unlock => false
    | Event.snd_pcm_period_elapsed _ => false
    | _ => true

/-- Number of transfer requests handed to the driver (`intel_mid_i2s_wr_req`,
`intel_mid_i2s_rd_req`). -/
def requests (tr : List Event) : Nat :=
  tr.countP fun e => match e with
    | Event.intel_mid_i2s_wr_req _ _ _ _ => true
    | Event.intel_mid_i2s_rd_req _ _ _ _ => true
    | _ => false

/-- Number of upstream notifications (`snd_pcm_period_elapsed`). -/
def notifications (tr : List Event) : Nat :=
  tr.countP fun e => match e with
    | Event.snd_pcm_period_elapsed _ => true
    | _ => false

/-- Every driver call whose value `intel_alsa_ifx_open` reads succeeds: the
channel is opened (a handle that is not `NULL`), both callbacks are installed
and every command returns 0. -/
def Hw.succeeds (hw : Hw) : Prop :=
  hw.intel_mid_i2s_open ≠ 0 ∧ (∀ h, hw.intel_mid_i2s_set_wr_cb h = 0) ∧
  (∀ h, hw.intel_mid_i2s_set_rd_cb h = 0) ∧ ∀ h c, hw.intel_mid_i2s_command h c = 0

/-- The direction of the stream is playback or capture. -/
def valid_direction (s : intel_alsa_ifx_stream_info) : Prop :=
  s.substream.stream = SNDRV_PCM_STREAM_PLAYBACK ∨ s.substream.stream = SNDRV_PCM_STREAM_CAPTURE

instance (s : intel_alsa_ifx_stream_info) : Decidable (valid_direction s) := by
  unfold valid_direction
  infer_instance

/-! ## Sample inputs -/

/-- A driver that opens the channel with handle 7 and accepts every call. -/
def hw_accept : Hw :=
  { intel_mid_i2s_open := 7
    intel_mid_i2s_command := fun _ _ => 0
    intel_mid_i2s_set_wr_cb := fun _ => 0
    intel_mid_i2s_set_rd_cb := fun _ => 0
    intel_mid_i2s_wr_req := fun _ _ _ => 0
    intel_mid_i2s_rd_req := fun _ _ _ => 0 }

/-- A driver that fails to open the channel (`NULL` handle) and refuses every
call with `-EINVAL`. -/
def hw_refuse : Hw :=
  { intel_mid_i2s_open := 0
    intel_mid_i2s_command := fun _ _ => -EINVAL
    intel_mid_i2s_set_wr_cb := fun _ => -EINVAL
    intel_mid_i2s_set_rd_cb := fun _ => -EINVAL
    intel_mid_i2s_wr_req := fun _ _ _ => -EINVAL
    intel_mid_i2s_rd_req := fun _ _ _ => -EINVAL }

/-- A driver that fails to open the channel (`NULL` handle) and answers 0 to every
other call, also on the `NULL` handle. -/
def hw_no_channel : Hw :=
  { intel_mid_i2s_open := 0
    intel_mid_i2s_command := fun _ _ => 0
    intel_mid_i2s_set_wr_cb := fun _ => 0
    intel_mid_i2s_set_rd_cb := fun _ => 0
    intel_mid_i2s_wr_req := fun _ _ _ => 0
    intel_mid_i2s_rd_req := fun _ _ _ => 0 }

/-- A driver that opens the channel with handle 7, installs the callbacks and
refuses every command with `-EBUSY`. -/
def hw_no_dma : Hw :=
  { intel_mid_i2s_open := 7
    intel_mid_i2s_command := fun _ _ => -EBUSY
    intel_mid_i2s_set_wr_cb := fun _ => 0
    intel_mid_i2s_set_rd_cb := fun _ => 0
    intel_mid_i2s_wr_req := fun _ _ _ => 0
    intel_mid_i2s_rd_req := fun _ _ _ => 0 }

/-- A ring of four periods of 256 bytes at address 4096, both indices 0. -/
def ring4 : intel_alsa_ssp_dma_buf :=
  { addr := 4096, length := 256, period_req_index := 0, period_cb_index := 0,
    period_index_max := 4 }

/-- The BT capture stream: index 0, direction capture. -/
def bt_capture : intel_alsa_ifx_stream_info :=
  { device_id := 0, stream_index := 0, substream := { stream := SNDRV_PCM_STREAM_CAPTURE },
    dma_slot := ring4, stream_status := 0 }

/-- The BT playback stream: index 1, direction playback. -/
def bt_playback : intel_alsa_ifx_stream_info :=
  { device_id := 0, stream_index := 1, substream := { stream := SNDRV_PCM_STREAM_PLAYBACK },
    dma_slot := ring4, stream_status := 0 }

/-- The FM capture stream: index 2, direction capture. -/
def fm_capture : intel_alsa_ifx_stream_info :=
  { device_id := 1, stream_index := 2, substream := { stream := SNDRV_PCM_STREAM_CAPTURE },
    dma_slot := ring4, stream_status := 0 }

/-- Sample bit numbers for the status flags: STARTED 1, RUNNING 2, DROPPED 4. -/
def sample_bits : ssp_stream_bits :=
  { INTEL_ALSA_SSP_STREAM_STARTED := 1, INTEL_ALSA_SSP_STREAM_RUNNING := 2,
    INTEL_ALSA_SSP_STREAM_DROPPED := 4 }

/-- The BT playback stream with the given status word and ring. -/
def playing (w : Nat) (slot : intel_alsa_ssp_dma_buf) : intel_alsa_ifx_stream_info :=
  { bt_playback with stream_status := w, dma_slot := slot }

/-! ## Sequences of completed open and close calls -/

/-- One completed call of the arbitration controller: an open with the answers the
driver gave during it, or a close. -/
inductive Call where
  | ifx_open (hw : Hw) (param : Option intel_alsa_ifx_stream_info)
  | ifx_close (param : Option intel_alsa_ifx_stream_info)

/-- The registry after one completed call, whatever the call returned. -/
def Call.step (st : intel_alsa_stream_status) : Call → intel_alsa_stream_status
  | Call.ifx_open hw param => (intel_alsa_ifx_open hw st param).status
  | Call.ifx_close param => (intel_alsa_ifx_close st param).status

/-- The registry after a sequence of completed calls. -/
def run (st : intel_alsa_stream_status) (calls : List Call) : intel_alsa_stream_status :=
  calls.foldl Call.step st

/-- The registry invariant of the spec: the open-set is non-empty if and only if
the handle is present. -/
def registry_consistent (st : intel_alsa_stream_status) : Prop :=
  st.stream_info ≠ 0 ↔ st.ssp_handle ≠ 0

instance (st : intel_alsa_stream_status) : Decidable (registry_consistent st) := by
  unfold registry_consistent
  infer_instance

/-- A call during which the channel, if it is opened, is opened with a handle that
is not `NULL`, and whose stream, if it is closed, has direction playback or
capture. -/
def Call.regular : Call → Prop
  | Call.ifx_open hw _ => hw.intel_mid_i2s_open ≠ 0
  | Call.ifx_close (some s) => valid_direction s
  | Call.ifx_close none => True

/-- A stream structure of index 0 whose substream direction is neither playback
nor capture. -/
def bad_direction : intel_alsa_ifx_stream_info :=
  { device_id := 0, stream_index := 0, substream := { stream := 2 },
    dma_slot := ring4, stream_status := 0 }

/-! ## The transfer pipeline of one stream -/

/-- Number of transfer requests of a trace that the driver accepted, that is,
answered with 0. -/
def accepted (hw : Hw) (tr : List Event) : Nat :=
  tr.countP fun e => match e with
    | Event.intel_mid_i2s_wr_req h a l _ => decide (hw.intel_mid_i2s_wr_req h a l = 0)
    | Event.intel_mid_i2s_rd_req h a l _ => decide (hw.intel_mid_i2s_rd_req h a l = 0)
    | _ => false

/-- The driver accepts every transfer request. -/
def Hw.accepts_requests (hw : Hw) : Prop :=
  (∀ h a l, hw.intel_mid_i2s_wr_req h a l = 0) ∧ ∀ h a l, hw.intel_mid_i2s_rd_req h a l = 0

/-- The completion callback the driver runs for a request of the stream: the write
callback for a playback stream, the read callback otherwise, as
`intel_alsa_ifx_open` installs them (lines 121-128). -/
def intel_alsa_ifx_dma_complete (b : ssp_stream_bits) (hw : Hw)
    (st : intel_alsa_stream_status) (s : intel_alsa_ifx_stream_info) : Result :=
  if s.substream.stream = SNDRV_PCM_STREAM_PLAYBACK then
    intel_alsa_ifx_dma_playback_complete b hw st (some s)
  else
    intel_alsa_ifx_dma_capture_complete b hw st (some s)

/-- A stream together with the number of its requests that the driver accepted
and has not completed yet. -/
structure PipeState where
  str_info : intel_alsa_ifx_stream_info
  outstanding : Nat
deriving DecidableEq, Repr

/-- One event of the pipeline of a stream, with the registry and the answers of
the driver at that time: a request issuance (`intel_alsa_ifx_transfer_data`) or
the completion of an outstanding request. -/
inductive PipeStep where
  | issue (hw : Hw) (st : intel_alsa_stream_status)
  | complete (hw : Hw) (st : intel_alsa_stream_status)

/-- One event of the pipeline. A completion needs an outstanding request and
consumes it; every request accepted during the call becomes outstanding. -/
def pipe_step (b : ssp_stream_bits) (ps : PipeState) : PipeStep → Option PipeState
  | PipeStep.issue hw st =>
    let r := intel_alsa_ifx_transfer_data b hw st ps.str_info
    some { str_info := r.str_info.getD ps.str_info,
           outstanding := ps.outstanding + accepted hw r.trace }
  | PipeStep.complete hw st =>
    if ps.outstanding = 0 then none
    else
      let r := intel_alsa_ifx_dma_complete b hw st ps.str_info
      some { str_info := r.str_info.getD ps.str_info,
             outstanding := ps.outstanding - 1 + accepted hw r.trace }

/-- A sequence of pipeline events; `none` when a completion is asked for with
nothing outstanding. -/
def pipe_run (b : ssp_stream_bits) : PipeState → List PipeStep → Option PipeState
  | ps, [] => some ps
  | ps, c :: cs =>
    match pipe_step b ps c with
    | some ps1 => pipe_run b ps1 cs
    | none => none

/-- The RUNNING invariant of the spec: at most one request is outstanding, and
RUNNING is set if and only if one is. -/
def pipe_invariant (b : ssp_stream_bits) (ps : PipeState) : Prop :=
  ps.outstanding ≤ 1 ∧
  (test_bit b.INTEL_ALSA_SSP_STREAM_RUNNING ps.str_info.stream_status = true ↔
    ps.outstanding = 1)

instance (b : ssp_stream_bits) (ps : PipeState) : Decidable (pipe_invariant b ps) := by
  unfold pipe_invariant
  infer_instance

/-- Every issuance of the sequence happens while RUNNING is clear. -/
def issues_when_idle (b : ssp_stream_bits) : PipeState → List PipeStep → Bool
  | _, [] => true
  | ps, c :: cs =>
    (match c with
      | PipeStep.issue _ _ =>
        !test_bit b.INTEL_ALSA_SSP_STREAM_RUNNING ps.str_info.stream_status
      | PipeStep.complete _ _ => true) &&
    match pipe_step b ps c with
    | some ps1 => issues_when_idle b ps1 cs
    | none => true

/-- One event on the slot of a stream when outstanding requests are not tracked:
an issuance, either completion callback, or the control path writing any value
to the status flags. -/
inductive SlotStep where
  | transfer_data (hw : Hw) (st : intel_alsa_stream_status)
  | playback_complete (hw : Hw) (st : intel_alsa_stream_status)
  | capture_complete (hw : Hw) (st : intel_alsa_stream_status)
  | flags (w : Nat)

/-- The stream structure after one slot event. -/
def SlotStep.apply (b : ssp_stream_bits) (s : intel_alsa_ifx_stream_info) :
    SlotStep → intel_alsa_ifx_stream_info
  | SlotStep.transfer_data hw st => (intel_alsa_ifx_transfer_data b hw st s).str_info.getD s
  | SlotStep.playback_complete hw st =>
    (intel_alsa_ifx_dma_playback_complete b hw st (some s)).str_info.getD s
  | SlotStep.capture_complete hw st =>
    (intel_alsa_ifx_dma_capture_complete b hw st (some s)).str_info.getD s
  | SlotStep.flags w => { s with stream_status := w }

/-- The stream structure after a sequence of slot events. -/
def slot_run (b : ssp_stream_bits) (s : intel_alsa_ifx_stream_info)
    (steps : List SlotStep) : intel_alsa_ifx_stream_info :=
  steps.foldl (SlotStep.apply b) s

/-- Both ring indices lie below `period_index_max`. -/
def indices_in_range (s : intel_alsa_ifx_stream_info) : Prop :=
  s.dma_slot.period_req_index < s.dma_slot.period_index_max ∧
  s.dma_slot.period_cb_index < s.dma_slot.period_index_max

instance (s : intel_alsa_ifx_stream_info) : Decidable (indices_in_range s) := by
  unfold indices_in_range
  infer_instance

/-- The stream structure after `n` completions in a row. -/
def completions (b : ssp_stream_bits) (hw : Hw) (st : intel_alsa_stream_status) :
    Nat → intel_alsa_ifx_stream_info → intel_alsa_ifx_stream_info
  | 0, s => s
  | n + 1, s =>
    (intel_alsa_ifx_dma_complete b hw st (completions b hw st n s)).str_info.getD
      (completions b hw st n s)

/-- The stream structure after the first request is issued and `n` completions
follow. -/
def start_then_completions (b : ssp_stream_bits) (hw : Hw) (st : intel_alsa_stream_status)
    (n : Nat) (s : intel_alsa_ifx_stream_info) : intel_alsa_ifx_stream_info :=
  completions b hw st n ((intel_alsa_ifx_transfer_data b hw st s).str_info.getD s)

/-! ## The registry lock -/

/-- The lock while a trace is replayed: whether it is held, and how many calls
were made while it was held. -/
structure LockState where
  held : Bool
  calls_under_lock : Nat
deriving DecidableEq, Repr

/-- One event of a trace on the lock: `spin_lock` takes it, `spin_unlock` releases
it, and any other event is a call, counted when the lock is held. -/
def LockState.step (l : LockState) : Event → LockState
  | Event.spin_lock => { l with held := true }
  | Event.spin_unlock => { l with held := false }
  | _ => if l.held = true then { l with calls_under_lock := l.calls_under_lock + 1 } else l

/-- The lock after a trace, starting not held. -/
def replay_lock (tr : List Event) : LockState :=
  tr.foldl LockState.step { held := false, calls_under_lock := 0 }

/-! ## Playback against capture, submitted slices, stream memory -/

/-- A trace event with every write request turned into the read request of the same
arguments. -/
def to_read : Event → Event
  | Event.intel_mid_i2s_wr_req h a l p => Event.intel_mid_i2s_rd_req h a l p
  | e => e

/-- The driver that answers a write request as `hw` answers the read request of the
same arguments. -/
def Hw.read_as_write (hw : Hw) : Hw :=
  { hw with intel_mid_i2s_wr_req := hw.intel_mid_i2s_rd_req }

/-- The function `intel_alsa_ifx_open` called with a pointer into the memory that
holds the stream structures, `none` being `NULL`: the structure the call leaves is
written back at the pointer. -/
def intel_alsa_ifx_open_at (hw : Hw) (st : intel_alsa_stream_status)
    (mem : Nat → intel_alsa_ifx_stream_info) (p : Option Nat) :
    Result × (Nat → intel_alsa_ifx_stream_info) :=
  match p with
  | none => (intel_alsa_ifx_open hw st none, mem)
  | some a =>
    (intel_alsa_ifx_open hw st (some (mem a)),
      fun q => if q = a then (intel_alsa_ifx_open hw st (some (mem a))).str_info.getD (mem a)
        else mem q)

end IntelAlsaIfx

/-!
# VT6656 USB pipe: the interrupt endpoint

A shallow embedding of `PIPEnsInterruptRead` and `s_nsInterruptUsbIoCompleteRead`
of `drivers/staging/vt6656/usbpipe.c`. The private structure is passed in and
returned; the value `usb_submit_urb` returns is an argument; the calls made are
recorded in order; `dev_dbg` only logs and is left out.
-/

namespace Vt6656

/-- Modelled from the spec: a submission that is accepted. `STATUS_SUCCESS` is
defined in the driver's `device.h`, which is not among the source files; its
value there is 0. -/
def STATUS_SUCCESS : Int := 0

/-- Modelled from the spec: a submission that fails. `STATUS_FAILURE` is defined in
the driver's `device.h`, which is not among the source files; its value there is
-1. -/
def STATUS_FAILURE : Int := -1

/-- Modelled from the spec: completion status of a request that timed out; the
errno value of the kernel headers. -/
def ETIMEDOUT : Int := 110

/-- Modelled from the spec: completion status of a request that was unlinked; the
errno value of the kernel headers. -/
def ECONNRESET : Int := 104

/-- Modelled from the spec: completion status of a request that was killed; the
errno value of the kernel headers. -/
def ENOENT : Int := 2

/-- Modelled from the spec: completion status of a request on a device that is
shut down; the errno value of the kernel headers. -/
def ESHUTDOWN : Int := 108

/-- The field of `priv->int_buf` that the two functions read or write. -/
structure vnt_interrupt_buffer where
  in_use : Bool
deriving DecidableEq, Repr

/-- The field of `struct vnt_private` that the two functions read or write. -/
structure vnt_private where
  int_buf : vnt_interrupt_buffer
deriving DecidableEq, Repr

/-- A call that leaves the two functions. -/
inductive UsbCall where
  | usb_fill_int_urb
  | usb_submit_urb
  | INTnsProcessData
deriving DecidableEq, Repr

/-- What a call of one of the two functions leaves behind: the returned value (0
for the completion routine, which returns nothing), the private structure and the
calls made. -/
structure IntResult where
  ret : Int
  priv : vnt_private
  calls : List UsbCall
deriving DecidableEq, Repr

/-- The function `PIPEnsInterruptRead` (lines 134-159); `submit` is the value of
`usb_submit_urb`. -/
def PIPEnsInterruptRead (submit : Int) (priv : vnt_private) : IntResult :=
  if priv.int_buf.in_use = true then
    { ret := STATUS_FAILURE, priv := priv, calls := [] }
  else
    let priv1 : vnt_private := { priv with int_buf := { priv.int_buf with in_use := true } }
    let calls := [UsbCall.usb_fill_int_urb, UsbCall.usb_submit_urb]
    let status := submit
    if status ≠ 0 then
      { ret := status,
        priv := { priv1 with int_buf := { priv1.int_buf with in_use := false } },
        calls := calls }
    else
      { ret := status, priv := priv1, calls := calls }

/-- The function `s_nsInterruptUsbIoCompleteRead` (lines 176-212); `urb_status` is
`urb->status`, `submit` the value of `usb_submit_urb`, and `INTnsProcessData` the
effect on the private structure of the function of that name, which is defined in
`int.c`, outside the source files. -/
def s_nsInterruptUsbIoCompleteRead (INTnsProcessData : vnt_private → vnt_private)
    (submit : Int) (urb_status : Int) (priv : vnt_private) : IntResult :=
  if urb_status = -ECONNRESET ∨ urb_status = -ENOENT ∨ urb_status = -ESHUTDOWN then
    { ret := 0, priv := { priv with int_buf := { priv.int_buf with in_use := false } },
      calls := [] }
  else
    let status := urb_status
    let priv1 : vnt_private :=
      if status ≠ STATUS_SUCCESS then
        { priv with int_buf := { priv.int_buf with in_use := false } }
      else INTnsProcessData priv
    let calls1 : List UsbCall :=
      if status ≠ STATUS_SUCCESS then [] else [UsbCall.INTnsProcessData]
    let status := submit
    if status ≠ 0 then
      { ret := 0, priv := priv1, calls := calls1 ++ [UsbCall.usb_submit_urb] }
    else
      { ret := 0, priv := { priv1 with int_buf := { priv1.int_buf with in_use := true } },
        calls := calls1 ++ [UsbCall.usb_submit_urb] }

/-- The private structure together with the number of interrupt requests that the
USB core accepted and has not completed yet. -/
structure IntPipe where
  priv : vnt_private
  outstanding : Nat
deriving DecidableEq, Repr

/-- One event on the interrupt pipe: a call of `PIPEnsInterruptRead`, or the
completion of an outstanding request with its status; each with the value
`usb_submit_urb` returns during it. -/
inductive IntStep where
  | read (submit : Int)
  | complete (urb_status : Int) (submit : Int)
deriving DecidableEq, Repr

/-- Number of requests the call handed to the USB core that were accepted. -/
def accepted_urbs (submit : Int) (calls : List UsbCall) : Nat :=
  if submit = 0 then calls.count UsbCall.usb_submit_urb else 0

/-- One event on the interrupt pipe. A completion needs an outstanding request and
consumes it; a request accepted during the call becomes outstanding. -/
def int_step (INTnsProcessData : vnt_private → vnt_private) (ps : IntPipe) :
    IntStep → Option IntPipe
  | IntStep.read submit =>
    some { priv := (PIPEnsInterruptRead submit ps.priv).priv,
           outstanding := ps.outstanding +
             accepted_urbs submit (PIPEnsInterruptRead submit ps.priv).calls }
  | IntStep.complete urb_status submit =>
    if ps.outstanding = 0 then none
    else
      some { priv := (s_nsInterruptUsbIoCompleteRead INTnsProcessData submit urb_status
               ps.priv).priv,
             outstanding := ps.outstanding - 1 +
               accepted_urbs submit (s_nsInterruptUsbIoCompleteRead INTnsProcessData submit
                 urb_status ps.priv).calls }

/-- A sequence of events on the interrupt pipe; `none` when a completion is asked
for with nothing outstanding. -/
def int_run (INTnsProcessData : vnt_private → vnt_private) :
    IntPipe → List IntStep → Option IntPipe
  | ps, [] => some ps
  | ps, c :: cs =>
    match int_step INTnsProcessData ps c with
    | some ps1 => int_run INTnsProcessData ps1 cs
    | none => none

/-- The in-use invariant: at most one interrupt request is outstanding, and
`in_use` is true exactly when one is. -/
def in_use_invariant (ps : IntPipe) : Prop :=
  ps.outstanding ≤ 1 ∧ (ps.priv.int_buf.in_use = true ↔ ps.outstanding = 1)

instance (ps : IntPipe) : Decidable (in_use_invariant ps) := by
  unfold in_use_invariant
  infer_instance

/-- A helper that marks the interrupt buffer free once its data is processed. -/
def process_and_free (priv : vnt_private) : vnt_private :=
  { priv with int_buf := { priv.int_buf with in_use := false } }

end Vt6656

namespace IntelAlsaIfx

/-! ## Bit operations -/

theorem test_bit_set_bit (m n w : Nat) :
    test_bit m (set_bit n w) = (decide (n = m) || test_bit m w) := by
  simp [test_bit, set_bit, Nat.testBit_or, Nat.one_shiftLeft, Nat.testBit_two_pow, Bool.or_comm]

theorem test_bit_clear_bit (m n w : Nat) :
    test_bit m (clear_bit n w) = (!decide (n = m) && test_bit m w) := by
  simp only [test_bit, clear_bit, Nat.testBit_xor, Nat.testBit_and, Nat.one_shiftLeft,
    Nat.testBit_two_pow]
  by_cases h : n = m <;> cases w.testBit m <;> simp [h]

theorem clear_bit_of_clear (n w : Nat) (h : test_bit n w = false) : clear_bit n w = w := by
  apply Nat.eq_of_testBit_eq
  intro i
  have := test_bit_clear_bit i n w
  simp only [test_bit] at this h
  rw [this]
  by_cases hi : n = i
  · subst hi; simp [h]
  · simp [hi]

theorem set_bit_ne_zero (n w : Nat) : set_bit n w ≠ 0 := by
  intro h
  have := test_bit_set_bit n n w
  rw [h] at this
  simp [test_bit] at this

/-! ## Slice arithmetic -/

theorem slice_address_first (sb : intel_alsa_ssp_dma_buf) (c : Nat) :
    slice_address { sb with period_cb_index := c, period_req_index := 0 } = wrap32 sb.addr := by
  simp [slice_address, slice_length, wrap32]

/-- C1: in a registry whose open-set is not empty, opening a stream that is not
the paired sibling of an open stream (neither index 0 with bit 1 set nor index 1
with bit 0 set) fails with `-EBUSY`, calls nothing of the driver and leaves
`stream_info` and `ssp_handle` as they were. -/
theorem open_unsupported_is_busy (hw : Hw) (st : intel_alsa_stream_status)
    (s : intel_alsa_ifx_stream_info) (hne : st.stream_info ≠ 0)
    (hns : ¬ ((s.stream_index = 0 ∧ test_bit 1 st.stream_info = true) ∨
      (s.stream_index = 1 ∧ test_bit 0 st.stream_info = true))) :
    (intel_alsa_ifx_open hw st (some s)).ret = -EBUSY ∧
    (intel_alsa_ifx_open hw st (some s)).status.stream_info = st.stream_info ∧
    (intel_alsa_ifx_open hw st (some s)).status.ssp_handle = st.ssp_handle ∧
    driver_calls (intel_alsa_ifx_open hw st (some s)).trace = 0 := by
  simp only [intel_alsa_ifx_open, if_neg hne, if_neg hns]
  simp [driver_calls]

/-- The registry with BT capture open on handle 7 refuses FM capture. -/
theorem open_unsupported_is_busy_witness :
    (1 : Nat) ≠ 0 ∧
    (intel_alsa_ifx_open hw_accept { ssp_handle := 7, stream_info := 1 }
      (some fm_capture)).ret = -EBUSY ∧
    (intel_alsa_ifx_open hw_accept { ssp_handle := 7, stream_info := 1 }
      (some fm_capture)).status = { ssp_handle := 7, stream_info := 1 } :=
  have h := open_unsupported_is_busy hw_accept { ssp_handle := 7, stream_info := 1 } fm_capture
    (by decide) (by decide)
  ⟨by decide, h.1, by
    cases hs : (intel_alsa_ifx_open hw_accept { ssp_handle := 7, stream_info := 1 }
      (some fm_capture)).status
    rw [hs] at h
    simp only at h
    rw [h.2.1, h.2.2.1]⟩

/-- C2: from the reset registry, whichever of the paired streams 0 and 1 is opened
first and whichever is closed first, with every driver call succeeding, all four
calls return 0, `intel_mid_i2s_open` is called once, by the first open, and
`intel_mid_i2s_close` is called once, by the last close, which leaves the registry
reset. -/
theorem paired_streams_acquire_once_release_once (hw1 hw2 : Hw)
    (a b : intel_alsa_ifx_stream_info) (swap : Bool)
    (hpair : (a.stream_index = 0 ∧ b.stream_index = 1) ∨
      (a.stream_index = 1 ∧ b.stream_index = 0))
    (hda : valid_direction a) (hdb : valid_direction b)
    (h1 : hw1.succeeds) (h2 : hw2.succeeds) :
    let o1 := intel_alsa_ifx_open hw1 intel_alsa_reset_ifx_status (some a)
    let o2 := intel_alsa_ifx_open hw2 o1.status (some b)
    let c1 := intel_alsa_ifx_close o2.status (if swap = true then o2.str_info else o1.str_info)
    let c2 := intel_alsa_ifx_close c1.status (if swap = true then o1.str_info else o2.str_info)
    (o1.ret = 0 ∧ o2.ret = 0 ∧ c1.ret = 0 ∧ c2.ret = 0) ∧
    (acquisitions o1.trace = 1 ∧ acquisitions o2.trace = 0 ∧
      acquisitions c1.trace = 0 ∧ acquisitions c2.trace = 0) ∧
    (releases o1.trace = 0 ∧ releases o2.trace = 0 ∧
      releases c1.trace = 0 ∧ releases c2.trace = 1) ∧
    o1.status.ssp_handle = hw1.intel_mid_i2s_open ∧
    o2.status.ssp_handle = hw1.intel_mid_i2s_open ∧
    c1.status.ssp_handle = hw1.intel_mid_i2s_open ∧
    c2.status = intel_alsa_reset_ifx_status := by
  obtain ⟨ho1, hw1w, hw1r, hw1c⟩ := h1
  obtain ⟨-, -, -, hw2c⟩ := h2
  obtain ⟨da, ia, ⟨sa⟩, sla, ssa⟩ := a
  obtain ⟨db, ib, ⟨sb⟩, slb, ssb⟩ := b
  simp only [valid_direction] at hda hdb
  simp only at hpair
  rcases hpair with ⟨rfl, rfl⟩ | ⟨rfl, rfl⟩ <;> rcases hda with rfl | rfl <;>
    rcases hdb with rfl | rfl <;> cases swap <;>
    simp [intel_alsa_ifx_open, intel_alsa_ifx_open_acquire, intel_alsa_ifx_open_alloc,
      intel_alsa_ifx_close, intel_alsa_reset_ifx_status, acquisitions, releases,
      hw1w, hw1r, hw1c, hw2c, ho1, SNDRV_PCM_STREAM_PLAYBACK, SNDRV_PCM_STREAM_CAPTURE,
      show set_bit 0 0 = 1 by decide, show set_bit 1 0 = 2 by decide,
      show set_bit 1 1 = 3 by decide, show set_bit 0 2 = 3 by decide,
      show clear_bit 0 3 = 2 by decide, show clear_bit 1 3 = 1 by decide,
      show clear_bit 1 2 = 0 by decide, show clear_bit 0 1 = 0 by decide,
      show test_bit 0 1 = true by decide, show test_bit 1 2 = true by decide]

/-- Both orders at once on the BT pair: capture opened first and closed last. -/
theorem paired_streams_acquire_once_release_once_witness :
    (hw_accept.succeeds ∧ valid_direction bt_capture ∧ valid_direction bt_playback) ∧
    acquisitions (intel_alsa_ifx_open hw_accept intel_alsa_reset_ifx_status
      (some bt_capture)).trace = 1 ∧
    acquisitions (intel_alsa_ifx_open hw_accept
      (intel_alsa_ifx_open hw_accept intel_alsa_reset_ifx_status (some bt_capture)).status
      (some bt_playback)).trace = 0 :=
  have hs : hw_accept.succeeds := ⟨by decide, fun _ => rfl, fun _ => rfl, fun _ _ => rfl⟩
  have h := paired_streams_acquire_once_release_once hw_accept hw_accept bt_capture bt_playback
    true (Or.inl ⟨rfl, rfl⟩) (Or.inr rfl) (Or.inl rfl) hs hs
  ⟨⟨hs, Or.inr rfl, Or.inl rfl⟩, h.2.1.1, h.2.1.2.1⟩

theorem open_alloc_status (hw : Hw) (st : intel_alsa_stream_status)
    (s : intel_alsa_ifx_stream_info) (tr : List Event) :
    (intel_alsa_ifx_open_alloc hw st s tr).status = st := by
  unfold intel_alsa_ifx_open_alloc
  split_ifs <;> rfl

theorem open_acquire_status (hw : Hw) (st : intel_alsa_stream_status)
    (s : intel_alsa_ifx_stream_info) (d : Nat) (open_ifx : Bool) (tr : List Event) :
    (intel_alsa_ifx_open_acquire hw st s d open_ifx tr).status =
      if open_ifx = true then { st with ssp_handle := hw.intel_mid_i2s_open } else st := by
  unfold intel_alsa_ifx_open_acquire
  dsimp only
  split_ifs <;> simp [open_alloc_status]

theorem open_keeps_consistent (hw : Hw) (st : intel_alsa_stream_status)
    (param : Option intel_alsa_ifx_stream_info) (hh : hw.intel_mid_i2s_open ≠ 0)
    (hc : registry_consistent st) :
    registry_consistent (intel_alsa_ifx_open hw st param).status := by
  cases param with
  | none => exact hc
  | some s =>
    unfold intel_alsa_ifx_open
    simp only
    split_ifs with h0 hsib
    · simp [open_acquire_status, registry_consistent, set_bit_ne_zero, hh]
    · have hne : st.ssp_handle ≠ 0 := hc.mp h0
      simp [open_acquire_status, registry_consistent, set_bit_ne_zero, hne]
    · exact hc

theorem close_keeps_consistent (st : intel_alsa_stream_status)
    (s : intel_alsa_ifx_stream_info) (hd : valid_direction s)
    (hc : registry_consistent st) :
    registry_consistent (intel_alsa_ifx_close st (some s)).status := by
  unfold intel_alsa_ifx_close
  simp only
  unfold valid_direction at hd
  by_cases hh : st.ssp_handle = 0
  · rw [if_pos hh]; exact hc
  · by_cases h0 : st.stream_info = 0
    · rw [if_neg hh, if_pos h0]; exact hc
    · rw [if_neg hh, if_neg h0, if_pos hd]
      by_cases hz : clear_bit s.stream_index st.stream_info = 0
      · simp [registry_consistent, hz]
      · simp [registry_consistent, hz, hh]

theorem step_keeps_consistent (st : intel_alsa_stream_status) (c : Call) (hr : c.regular)
    (hc : registry_consistent st) : registry_consistent (Call.step st c) := by
  cases c with
  | ifx_open hw param => exact open_keeps_consistent hw st param hr hc
  | ifx_close param =>
    cases param with
    | none => exact hc
    | some s => exact close_keeps_consistent st s hr hc

theorem run_keeps_consistent (calls : List Call) :
    ∀ st : intel_alsa_stream_status, (∀ c ∈ calls, c.regular) → registry_consistent st →
      registry_consistent (run st calls) := by
  induction calls with
  | nil => intro st _ hc; exact hc
  | cons c cs ih =>
    intro st hr hc
    have h1 : registry_consistent (Call.step st c) :=
      step_keeps_consistent st c (hr c (List.mem_cons_self c cs)) hc
    exact ih (Call.step st c) (fun d hd => hr d (List.mem_cons_of_mem c hd)) h1

/-- C3, as stated, fails. After an open during which `intel_mid_i2s_open` gave
`NULL`, bit 0 is set and the handle is `NULL`; and after a close that leaves by the
bad-direction return, the open-set is empty and the handle is still there. -/
theorem registry_invariant_broken :
    ¬ registry_consistent
      (run intel_alsa_reset_ifx_status [Call.ifx_open hw_refuse (some bt_capture)]) ∧
    ¬ registry_consistent
      (run intel_alsa_reset_ifx_status
        [Call.ifx_open hw_accept (some bt_capture), Call.ifx_close (some bad_direction)]) := by
  constructor <;> decide

/-- C3, amended: in every state reached from the reset registry by completed open
and close calls, whatever they return, in which every `intel_mid_i2s_open` gave a
handle that is not `NULL` and every closed stream has direction playback or
capture, `stream_info` is non-zero if and only if `ssp_handle` is not `NULL`. -/
theorem registry_invariant_of_regular_calls (calls : List Call)
    (hr : ∀ c ∈ calls, c.regular) :
    registry_consistent (run intel_alsa_reset_ifx_status calls) :=
  run_keeps_consistent calls intel_alsa_reset_ifx_status hr
    (by simp [registry_consistent, intel_alsa_reset_ifx_status])

/-- The invariant after opening the BT pair, a refused FM open, and closing BT
capture. -/
theorem registry_invariant_of_regular_calls_witness :
    registry_consistent (run intel_alsa_reset_ifx_status
      [Call.ifx_open hw_accept (some bt_capture), Call.ifx_open hw_accept (some bt_playback),
        Call.ifx_open hw_accept (some fm_capture), Call.ifx_close (some bt_capture)]) :=
  registry_invariant_of_regular_calls _ (by
    intro c hc
    simp only [List.mem_cons, List.mem_singleton, List.not_mem_nil, or_false] at hc
    rcases hc with rfl | rfl | rfl | rfl
    · show (7 : Nat) ≠ 0
      decide
    · show (7 : Nat) ≠ 0
      decide
    · show (7 : Nat) ≠ 0
      decide
    · exact Or.inr rfl)

/-- C4, as stated, fails twice. In the reset registry no bit is set, and closing BT
capture returns `-EINVAL`, not `-EBUSY`. With BT capture alone open on handle 7,
bit 1 is clear, and closing BT playback returns 0 and sends `SSP_CMD_FREE_TX` to
the driver. -/
theorem close_of_unopened_stream_not_busy :
    (test_bit bt_capture.stream_index intel_alsa_reset_ifx_status.stream_info = false ∧
      (intel_alsa_ifx_close intel_alsa_reset_ifx_status (some bt_capture)).ret = -EINVAL ∧
      (intel_alsa_ifx_close intel_alsa_reset_ifx_status (some bt_capture)).ret ≠ -EBUSY) ∧
    (test_bit bt_playback.stream_index 1 = false ∧
      (intel_alsa_ifx_close { ssp_handle := 7, stream_info := 1 } (some bt_playback)).ret = 0 ∧
      (intel_alsa_ifx_close { ssp_handle := 7, stream_info := 1 } (some bt_playback)).trace =
        [Event.spin_lock, Event.spin_unlock,
          Event.intel_mid_i2s_command 7 ssp_cmd.SSP_CMD_FREE_TX none]) := by
  decide

/-- C4, amended: in a registry whose open-set is empty (`stream_info` is 0), closing
any stream fails, with `-EINVAL` when `ssp_handle` is `NULL` and with `-EBUSY`
(close before open) when it is present; nothing of the driver is called and
`stream_info` and `ssp_handle` are left as they were. -/
theorem close_on_empty_open_set_fails (st : intel_alsa_stream_status)
    (s : intel_alsa_ifx_stream_info) (h0 : st.stream_info = 0) :
    (intel_alsa_ifx_close st (some s)).ret = (if st.ssp_handle = 0 then -EINVAL else -EBUSY) ∧
    (intel_alsa_ifx_close st (some s)).ret ≠ 0 ∧
    driver_calls (intel_alsa_ifx_close st (some s)).trace = 0 ∧
    (intel_alsa_ifx_close st (some s)).status = st := by
  unfold intel_alsa_ifx_close
  by_cases hh : st.ssp_handle = 0
  · simp [hh, driver_calls, EINVAL]
  · simp [hh, h0, driver_calls, EBUSY]

/-- An empty open-set with handle 7 still present: the close is refused with
`-EBUSY`. -/
theorem close_on_empty_open_set_fails_witness :
    (0 : Nat) = 0 ∧
    (intel_alsa_ifx_close { ssp_handle := 7, stream_info := 0 } (some bt_capture)).ret =
      -EBUSY :=
  ⟨rfl, (close_on_empty_open_set_fails { ssp_handle := 7, stream_info := 0 } bt_capture rfl).1⟩

/-- C5, as stated, fails. With both BT streams open on handle 7, closing BT capture
returns 0, and closing it again returns 0 again and sends `SSP_CMD_FREE_RX` to the
driver a second time. -/
theorem second_close_succeeds_while_sibling_open :
    (intel_alsa_ifx_close { ssp_handle := 7, stream_info := 3 } (some bt_capture)).ret = 0 ∧
    (intel_alsa_ifx_close
      (intel_alsa_ifx_close { ssp_handle := 7, stream_info := 3 } (some bt_capture)).status
      (intel_alsa_ifx_close { ssp_handle := 7, stream_info := 3 }
        (some bt_capture)).str_info).ret = 0 ∧
    (intel_alsa_ifx_close
      (intel_alsa_ifx_close { ssp_handle := 7, stream_info := 3 } (some bt_capture)).status
      (intel_alsa_ifx_close { ssp_handle := 7, stream_info := 3 }
        (some bt_capture)).str_info).trace =
      [Event.spin_lock, Event.spin_unlock,
        Event.intel_mid_i2s_command 7 ssp_cmd.SSP_CMD_FREE_RX none] := by
  decide

/-- C5, amended: if closing a stream returns 0 and leaves the open-set empty (the
stream was the last one open), then closing it again at once fails with `-EINVAL`,
calls nothing at all and leaves the registry as the first close left it. -/
theorem second_close_fails_after_last_close (st : intel_alsa_stream_status)
    (s : intel_alsa_ifx_stream_info)
    (h1 : (intel_alsa_ifx_close st (some s)).ret = 0)
    (h2 : (intel_alsa_ifx_close st (some s)).status.stream_info = 0) :
    (intel_alsa_ifx_close (intel_alsa_ifx_close st (some s)).status
      (intel_alsa_ifx_close st (some s)).str_info).ret = -EINVAL ∧
    (intel_alsa_ifx_close (intel_alsa_ifx_close st (some s)).status
      (intel_alsa_ifx_close st (some s)).str_info).ret ≠ 0 ∧
    (intel_alsa_ifx_close (intel_alsa_ifx_close st (some s)).status
      (intel_alsa_ifx_close st (some s)).str_info).trace = [] ∧
    (intel_alsa_ifx_close (intel_alsa_ifx_close st (some s)).status
      (intel_alsa_ifx_close st (some s)).str_info).status =
      (intel_alsa_ifx_close st (some s)).status := by
  have hh : (intel_alsa_ifx_close st (some s)).status.ssp_handle = 0 := by
    revert h1 h2
    unfold intel_alsa_ifx_close
    dsimp only
    split_ifs <;> simp_all [EINVAL, EBUSY]
  have hs : (intel_alsa_ifx_close st (some s)).str_info = some s := by
    unfold intel_alsa_ifx_close
    dsimp only
    split_ifs <;> rfl
  rw [hs]
  generalize (intel_alsa_ifx_close st (some s)).status = st1 at hh
  unfold intel_alsa_ifx_close
  simp [hh, EINVAL]

/-- BT capture alone open on handle 7: the first close releases the channel, the
second is refused. -/
theorem second_close_fails_after_last_close_witness :
    (intel_alsa_ifx_close { ssp_handle := 7, stream_info := 1 } (some bt_capture)).ret = 0 ∧
    (intel_alsa_ifx_close
      (intel_alsa_ifx_close { ssp_handle := 7, stream_info := 1 } (some bt_capture)).status
      (intel_alsa_ifx_close { ssp_handle := 7, stream_info := 1 }
        (some bt_capture)).str_info).ret = -EINVAL :=
  ⟨by decide, (second_close_fails_after_last_close { ssp_handle := 7, stream_info := 1 }
    bt_capture (by decide) (by decide)).1⟩

/-! ## Request issuance -/

theorem playback_req_status (b : ssp_stream_bits) (hw : Hw) (st : intel_alsa_stream_status)
    (s : intel_alsa_ifx_stream_info) :
    (intel_alsa_ifx_dma_playback_req b hw st s).status = st := by
  unfold intel_alsa_ifx_dma_playback_req
  dsimp only
  split_ifs <;> rfl

theorem capture_req_status (b : ssp_stream_bits) (hw : Hw) (st : intel_alsa_stream_status)
    (s : intel_alsa_ifx_stream_info) :
    (intel_alsa_ifx_dma_capture_req b hw st s).status = st := by
  unfold intel_alsa_ifx_dma_capture_req
  dsimp only
  split_ifs <;> rfl

theorem playback_req_keeps_cb (b : ssp_stream_bits) (hw : Hw) (st : intel_alsa_stream_status)
    (s : intel_alsa_ifx_stream_info) :
    ∃ s2, (intel_alsa_ifx_dma_playback_req b hw st s).str_info = some s2 ∧
      s2.dma_slot.period_cb_index = s.dma_slot.period_cb_index := by
  unfold intel_alsa_ifx_dma_playback_req
  dsimp only
  split_ifs <;> exact ⟨_, rfl, rfl⟩

theorem capture_req_keeps_cb (b : ssp_stream_bits) (hw : Hw) (st : intel_alsa_stream_status)
    (s : intel_alsa_ifx_stream_info) :
    ∃ s2, (intel_alsa_ifx_dma_capture_req b hw st s).str_info = some s2 ∧
      s2.dma_slot.period_cb_index = s.dma_slot.period_cb_index := by
  unfold intel_alsa_ifx_dma_capture_req
  dsimp only
  split_ifs <;> exact ⟨_, rfl, rfl⟩

theorem playback_req_requests (b : ssp_stream_bits) (hw : Hw) (st : intel_alsa_stream_status)
    (s : intel_alsa_ifx_stream_info) :
    requests (intel_alsa_ifx_dma_playback_req b hw st s).trace =
      (if st.ssp_handle = 0 then 0 else 1) ∧
    notifications (intel_alsa_ifx_dma_playback_req b hw st s).trace = 0 := by
  unfold intel_alsa_ifx_dma_playback_req
  dsimp only
  split_ifs <;> simp [requests, notifications]

theorem capture_req_requests (b : ssp_stream_bits) (hw : Hw) (st : intel_alsa_stream_status)
    (s : intel_alsa_ifx_stream_info) :
    requests (intel_alsa_ifx_dma_capture_req b hw st s).trace =
      (if st.ssp_handle = 0 then 0 else 1) ∧
    notifications (intel_alsa_ifx_dma_capture_req b hw st s).trace = 0 := by
  unfold intel_alsa_ifx_dma_capture_req
  dsimp only
  split_ifs <;> simp [requests, notifications]

theorem playback_req_accepted (b : ssp_stream_bits) (hw : Hw) (st : intel_alsa_stream_status)
    (s : intel_alsa_ifx_stream_info) (hh : st.ssp_handle ≠ 0)
    (ha : hw.intel_mid_i2s_wr_req st.ssp_handle
      (slice_address s.dma_slot) (slice_length s.dma_slot) = 0)
    (hr : test_bit b.INTEL_ALSA_SSP_STREAM_RUNNING s.stream_status = false) :
    intel_alsa_ifx_dma_playback_req b hw st s =
      { ret := 0, status := st,
        str_info := some { s with
          stream_status := set_bit b.INTEL_ALSA_SSP_STREAM_RUNNING s.stream_status,
          dma_slot := { s.dma_slot with period_req_index :=
            (if s.dma_slot.period_req_index + 1 ≥ s.dma_slot.period_index_max then 0
              else s.dma_slot.period_req_index + 1) } },
        trace := [Event.intel_mid_i2s_wr_req st.ssp_handle
            (slice_address s.dma_slot)
            (slice_length s.dma_slot) s,
          Event.intel_mid_i2s_command st.ssp_handle ssp_cmd.SSP_CMD_ENABLE_SSP none] } := by
  unfold intel_alsa_ifx_dma_playback_req
  simp only [if_neg hh, if_pos ha, test_and_set_bit, hr]
  split_ifs <;> simp_all

theorem capture_req_accepted (b : ssp_stream_bits) (hw : Hw) (st : intel_alsa_stream_status)
    (s : intel_alsa_ifx_stream_info) (hh : st.ssp_handle ≠ 0)
    (ha : hw.intel_mid_i2s_rd_req st.ssp_handle
      (slice_address s.dma_slot) (slice_length s.dma_slot) = 0)
    (hr : test_bit b.INTEL_ALSA_SSP_STREAM_RUNNING s.stream_status = false) :
    intel_alsa_ifx_dma_capture_req b hw st s =
      { ret := 0, status := st,
        str_info := some { s with
          stream_status := set_bit b.INTEL_ALSA_SSP_STREAM_RUNNING s.stream_status,
          dma_slot := { s.dma_slot with period_req_index :=
            (if s.dma_slot.period_req_index + 1 ≥ s.dma_slot.period_index_max then 0
              else s.dma_slot.period_req_index + 1) } },
        trace := [Event.intel_mid_i2s_rd_req st.ssp_handle
            (slice_address s.dma_slot)
            (slice_length s.dma_slot) s,
          Event.intel_mid_i2s_command st.ssp_handle ssp_cmd.SSP_CMD_ENABLE_SSP none] } := by
  unfold intel_alsa_ifx_dma_capture_req
  simp only [if_neg hh, if_pos ha, test_and_set_bit, hr]
  split_ifs <;> simp_all

theorem playback_req_not_accepted (b : ssp_stream_bits) (hw : Hw)
    (st : intel_alsa_stream_status) (s : intel_alsa_ifx_stream_info)
    (hn : st.ssp_handle = 0 ∨ hw.intel_mid_i2s_wr_req st.ssp_handle
      (slice_address s.dma_slot)
      (slice_length s.dma_slot) ≠ 0) :
    (intel_alsa_ifx_dma_playback_req b hw st s).ret = -EINVAL ∧
    (intel_alsa_ifx_dma_playback_req b hw st s).str_info = some s := by
  unfold intel_alsa_ifx_dma_playback_req
  by_cases hh : st.ssp_handle = 0
  · simp [hh]
  · have hne := hn.resolve_left hh
    simp [hh, hne]

theorem capture_req_not_accepted (b : ssp_stream_bits) (hw : Hw)
    (st : intel_alsa_stream_status) (s : intel_alsa_ifx_stream_info)
    (hn : st.ssp_handle = 0 ∨ hw.intel_mid_i2s_rd_req st.ssp_handle
      (slice_address s.dma_slot)
      (slice_length s.dma_slot) ≠ 0) :
    (intel_alsa_ifx_dma_capture_req b hw st s).ret = -EINVAL ∧
    (intel_alsa_ifx_dma_capture_req b hw st s).str_info = some s := by
  unfold intel_alsa_ifx_dma_capture_req
  by_cases hh : st.ssp_handle = 0
  · simp [hh]
  · have hne := hn.resolve_left hh
    simp [hh, hne]

/-! ## Completion handling -/

theorem playback_complete_decision (b : ssp_stream_bits) (hw : Hw)
    (st : intel_alsa_stream_status) (s : intel_alsa_ifx_stream_info) (hb : b.distinct)
    (hr : test_bit b.INTEL_ALSA_SSP_STREAM_RUNNING s.stream_status = true) :
    intel_alsa_ifx_dma_playback_complete b hw st (some s) =
      if test_bit b.INTEL_ALSA_SSP_STREAM_DROPPED s.stream_status = true then
        intel_alsa_ifx_dma_playback_complete_tail b hw st
          { s with stream_status := (clear_bit b.INTEL_ALSA_SSP_STREAM_DROPPED
              (clear_bit b.INTEL_ALSA_SSP_STREAM_RUNNING s.stream_status)) }
          (test_bit b.INTEL_ALSA_SSP_STREAM_STARTED s.stream_status)
          (test_bit b.INTEL_ALSA_SSP_STREAM_STARTED s.stream_status)
      else if test_bit b.INTEL_ALSA_SSP_STREAM_STARTED s.stream_status = true then
        intel_alsa_ifx_dma_playback_complete_tail b hw st
          { s with stream_status := clear_bit b.INTEL_ALSA_SSP_STREAM_RUNNING s.stream_status }
          true false
      else
        { ret := -EBUSY, status := st,
          str_info := some { s with stream_status :=
            (clear_bit b.INTEL_ALSA_SSP_STREAM_RUNNING s.stream_status) },
          trace := [] } := by
  obtain ⟨hsr, hsd, hrd⟩ := hb
  have hd1 : test_bit b.INTEL_ALSA_SSP_STREAM_DROPPED
      (clear_bit b.INTEL_ALSA_SSP_STREAM_RUNNING s.stream_status) =
      test_bit b.INTEL_ALSA_SSP_STREAM_DROPPED s.stream_status := by
    simp [test_bit_clear_bit, hrd]
  have hs2 : test_bit b.INTEL_ALSA_SSP_STREAM_STARTED
      (clear_bit b.INTEL_ALSA_SSP_STREAM_DROPPED
        (clear_bit b.INTEL_ALSA_SSP_STREAM_RUNNING s.stream_status)) =
      test_bit b.INTEL_ALSA_SSP_STREAM_STARTED s.stream_status := by
    simp [test_bit_clear_bit, Ne.symm hsr, Ne.symm hsd]
  unfold intel_alsa_ifx_dma_playback_complete
  simp only [test_and_clear_bit, hr, hd1, hs2, if_true]
  cases hD : test_bit b.INTEL_ALSA_SSP_STREAM_DROPPED s.stream_status
  · have hc : clear_bit b.INTEL_ALSA_SSP_STREAM_DROPPED
        (clear_bit b.INTEL_ALSA_SSP_STREAM_RUNNING s.stream_status) =
        clear_bit b.INTEL_ALSA_SSP_STREAM_RUNNING s.stream_status :=
      clear_bit_of_clear _ _ (by rw [hd1]; exact hD)
    rw [hc]
    cases hS : test_bit b.INTEL_ALSA_SSP_STREAM_STARTED s.stream_status <;> simp
  · cases hS : test_bit b.INTEL_ALSA_SSP_STREAM_STARTED s.stream_status <;> simp

theorem capture_complete_decision (b : ssp_stream_bits) (hw : Hw)
    (st : intel_alsa_stream_status) (s : intel_alsa_ifx_stream_info) (hb : b.distinct)
    (hr : test_bit b.INTEL_ALSA_SSP_STREAM_RUNNING s.stream_status = true) :
    intel_alsa_ifx_dma_capture_complete b hw st (some s) =
      if test_bit b.INTEL_ALSA_SSP_STREAM_DROPPED s.stream_status = true then
        intel_alsa_ifx_dma_capture_complete_tail b hw st
          { s with stream_status := (clear_bit b.INTEL_ALSA_SSP_STREAM_DROPPED
              (clear_bit b.INTEL_ALSA_SSP_STREAM_RUNNING s.stream_status)) }
          (test_bit b.INTEL_ALSA_SSP_STREAM_STARTED s.stream_status)
          (test_bit b.INTEL_ALSA_SSP_STREAM_STARTED s.stream_status)
      else if test_bit b.INTEL_ALSA_SSP_STREAM_STARTED s.stream_status = true then
        intel_alsa_ifx_dma_capture_complete_tail b hw st
          { s with stream_status := clear_bit b.INTEL_ALSA_SSP_STREAM_RUNNING s.stream_status }
          true false
      else
        { ret := -EBUSY, status := st,
          str_info := some { s with stream_status :=
            (clear_bit b.INTEL_ALSA_SSP_STREAM_RUNNING s.stream_status) },
          trace := [] } := by
  obtain ⟨hsr, hsd, hrd⟩ := hb
  have hd1 : test_bit b.INTEL_ALSA_SSP_STREAM_DROPPED
      (clear_bit b.INTEL_ALSA_SSP_STREAM_RUNNING s.stream_status) =
      test_bit b.INTEL_ALSA_SSP_STREAM_DROPPED s.stream_status := by
    simp [test_bit_clear_bit, hrd]
  have hs2 : test_bit b.INTEL_ALSA_SSP_STREAM_STARTED
      (clear_bit b.INTEL_ALSA_SSP_STREAM_DROPPED
        (clear_bit b.INTEL_ALSA_SSP_STREAM_RUNNING s.stream_status)) =
      test_bit b.INTEL_ALSA_SSP_STREAM_STARTED s.stream_status := by
    simp [test_bit_clear_bit, Ne.symm hsr, Ne.symm hsd]
  unfold intel_alsa_ifx_dma_capture_complete
  simp only [test_and_clear_bit, hr, hd1, hs2, if_true]
  cases hD : test_bit b.INTEL_ALSA_SSP_STREAM_DROPPED s.stream_status
  · have hc : clear_bit b.INTEL_ALSA_SSP_STREAM_DROPPED
        (clear_bit b.INTEL_ALSA_SSP_STREAM_RUNNING s.stream_status) =
        clear_bit b.INTEL_ALSA_SSP_STREAM_RUNNING s.stream_status :=
      clear_bit_of_clear _ _ (by rw [hd1]; exact hD)
    rw [hc]
    cases hS : test_bit b.INTEL_ALSA_SSP_STREAM_STARTED s.stream_status <;> simp
  · cases hS : test_bit b.INTEL_ALSA_SSP_STREAM_STARTED s.stream_status <;> simp

theorem wrap_slot_eq_mod (slot : intel_alsa_ssp_dma_buf)
    (h : slot.period_cb_index < slot.period_index_max) :
    (if slot.period_cb_index + 1 ≥ slot.period_index_max then
        { slot with period_cb_index := 0 }
      else { slot with period_cb_index := slot.period_cb_index + 1 }) =
      { slot with period_cb_index := (slot.period_cb_index + 1) % slot.period_index_max } := by
  split_ifs with hge
  · have he : slot.period_cb_index + 1 = slot.period_index_max := by omega
    rw [he, Nat.mod_self]
  · rw [Nat.mod_eq_of_lt (by omega)]

/-- C6, as stated, fails twice. With `period_cb_index` 5 in a ring of 4 periods the
handler sets the index to 0, while (5 + 1) mod 4 is 2. With the channel handle
`NULL` and a well-formed slot the handler returns 0 and notifies upstream, and
hands no request to the driver. -/
theorem steady_state_completion_deviates :
    (test_bit 2 6 = true ∧ test_bit 4 6 = false ∧ test_bit 1 6 = true) ∧
    intel_alsa_ifx_dma_playback_complete sample_bits hw_accept
      { ssp_handle := 7, stream_info := 2 }
      (some (playing 6 { ring4 with period_req_index := 1, period_cb_index := 5 })) =
      { ret := 0, status := { ssp_handle := 7, stream_info := 2 },
        str_info := some (playing 6 { ring4 with period_req_index := 2, period_cb_index := 0 }),
        trace := [Event.intel_mid_i2s_wr_req 7 (4096 + 256 * 1) 256
            (playing 2 { ring4 with period_req_index := 1, period_cb_index := 0 }),
          Event.intel_mid_i2s_command 7 ssp_cmd.SSP_CMD_ENABLE_SSP none,
          Event.snd_pcm_period_elapsed bt_playback.substream] } ∧
    (5 + 1) % 4 ≠ 0 ∧
    intel_alsa_ifx_dma_playback_complete sample_bits hw_accept
      { ssp_handle := 0, stream_info := 0 }
      (some (playing 6 { ring4 with period_req_index := 1 })) =
      { ret := 0, status := { ssp_handle := 0, stream_info := 0 },
        str_info := some (playing 2 { ring4 with period_req_index := 1, period_cb_index := 1 }),
        trace := [Event.snd_pcm_period_elapsed bt_playback.substream] } := by
  decide

/-- C6, amended: for a slot with RUNNING set, DROPPED clear, STARTED set and
`period_cb_index < period_index_max`, each completion handler clears RUNNING, sets
`period_cb_index` to `(period_cb_index + 1) mod period_index_max`, runs the
request function of its direction once on that slot, notifies upstream once and
returns 0; the request function hands one request to the driver when the channel
handle is present and none when it is `NULL`. -/
theorem steady_state_completion (b : ssp_stream_bits) (hw : Hw)
    (st : intel_alsa_stream_status) (s : intel_alsa_ifx_stream_info) (hb : b.distinct)
    (hr : test_bit b.INTEL_ALSA_SSP_STREAM_RUNNING s.stream_status = true)
    (hd : test_bit b.INTEL_ALSA_SSP_STREAM_DROPPED s.stream_status = false)
    (hs : test_bit b.INTEL_ALSA_SSP_STREAM_STARTED s.stream_status = true)
    (hcb : s.dma_slot.period_cb_index < s.dma_slot.period_index_max) :
    let s1 : intel_alsa_ifx_stream_info :=
      { s with
        stream_status := clear_bit b.INTEL_ALSA_SSP_STREAM_RUNNING s.stream_status,
        dma_slot := { s.dma_slot with period_cb_index :=
          (s.dma_slot.period_cb_index + 1) % s.dma_slot.period_index_max } }
    let p := intel_alsa_ifx_dma_playback_req b hw st s1
    let c := intel_alsa_ifx_dma_capture_req b hw st s1
    (test_bit b.INTEL_ALSA_SSP_STREAM_RUNNING s1.stream_status = false ∧ test_bit b.INTEL_ALSA_SSP_STREAM_DROPPED s1.stream_status = false ∧
      test_bit b.INTEL_ALSA_SSP_STREAM_STARTED s1.stream_status = true) ∧
    intel_alsa_ifx_dma_playback_complete b hw st (some s) =
      { ret := 0, status := st, str_info := p.str_info,
        trace := p.trace ++ [Event.snd_pcm_period_elapsed s.substream] } ∧
    intel_alsa_ifx_dma_capture_complete b hw st (some s) =
      { ret := 0, status := st, str_info := c.str_info,
        trace := c.trace ++ [Event.snd_pcm_period_elapsed s.substream] } ∧
    (∃ s2, p.str_info = some s2 ∧ s2.dma_slot.period_cb_index =
      (s.dma_slot.period_cb_index + 1) % s.dma_slot.period_index_max) ∧
    (∃ s2, c.str_info = some s2 ∧ s2.dma_slot.period_cb_index =
      (s.dma_slot.period_cb_index + 1) % s.dma_slot.period_index_max) ∧
    requests (p.trace ++ [Event.snd_pcm_period_elapsed s.substream]) =
      (if st.ssp_handle = 0 then 0 else 1) ∧
    requests (c.trace ++ [Event.snd_pcm_period_elapsed s.substream]) =
      (if st.ssp_handle = 0 then 0 else 1) ∧
    notifications (p.trace ++ [Event.snd_pcm_period_elapsed s.substream]) = 1 ∧
    notifications (c.trace ++ [Event.snd_pcm_period_elapsed s.substream]) = 1 := by
  intro s1 p c
  have hsr : b.INTEL_ALSA_SSP_STREAM_STARTED ≠ b.INTEL_ALSA_SSP_STREAM_RUNNING := hb.1
  refine ⟨⟨?_, ?_, ?_⟩, ?_, ?_, ?_, ?_, ?_, ?_, ?_, ?_⟩
  · simp [s1, test_bit_clear_bit]
  · simp [s1, test_bit_clear_bit, hd]
  · simp [s1, test_bit_clear_bit, hs, Ne.symm hsr]
  · rw [playback_complete_decision b hw st s hb hr]
    simp only [hd, hs, Bool.false_eq_true, if_false, if_true,
      intel_alsa_ifx_dma_playback_complete_tail, wrap_slot_eq_mod s.dma_slot hcb,
      playback_req_status]
  · rw [capture_complete_decision b hw st s hb hr]
    simp only [hd, hs, Bool.false_eq_true, if_false, if_true,
      intel_alsa_ifx_dma_capture_complete_tail, wrap_slot_eq_mod s.dma_slot hcb,
      capture_req_status]
  · exact playback_req_keeps_cb b hw st s1
  · exact capture_req_keeps_cb b hw st s1
  · have h := (playback_req_requests b hw st s1).1
    simp only [requests, List.countP_append] at h ⊢
    rw [h]
    simp
  · have h := (capture_req_requests b hw st s1).1
    simp only [requests, List.countP_append] at h ⊢
    rw [h]
    simp
  · have h := (playback_req_requests b hw st s1).2
    simp only [notifications, List.countP_append] at h ⊢
    rw [h]
    simp
  · have h := (capture_req_requests b hw st s1).2
    simp only [notifications, List.countP_append] at h ⊢
    rw [h]
    simp

/-- A running, started BT playback slot at completion index 3 of 4: the index wraps
to 0 and the handler returns 0. -/
theorem steady_state_completion_witness :
    (sample_bits.distinct ∧ test_bit 2 6 = true ∧ test_bit 4 6 = false ∧
      test_bit 1 6 = true ∧ 3 < 4) ∧
    intel_alsa_ifx_dma_playback_complete sample_bits hw_accept
      { ssp_handle := 7, stream_info := 2 }
      (some (playing 6 { ring4 with period_cb_index := 3 })) =
      { ret := 0, status := { ssp_handle := 7, stream_info := 2 },
        str_info := (intel_alsa_ifx_dma_playback_req sample_bits hw_accept
          { ssp_handle := 7, stream_info := 2 } (playing 2 ring4)).str_info,
        trace := (intel_alsa_ifx_dma_playback_req sample_bits hw_accept
          { ssp_handle := 7, stream_info := 2 } (playing 2 ring4)).trace ++
          [Event.snd_pcm_period_elapsed bt_playback.substream] } :=
  ⟨by decide, (steady_state_completion sample_bits hw_accept
    { ssp_handle := 7, stream_info := 2 } (playing 6 { ring4 with period_cb_index := 3 })
    (by decide) (by decide) (by decide) (by decide) (by decide)).2.1⟩

/-- C7, as stated, fails twice. In a ring of 4 periods with the request accepted,
`period_req_index` is 1 on return, not 0. With the request rejected by the driver
the handler still returns 0 and notifies upstream, RUNNING is clear on return and
no request is outstanding. -/
theorem restart_completion_deviates :
    (test_bit 2 22 = true ∧ test_bit 4 22 = true ∧ test_bit 1 22 = true) ∧
    intel_alsa_ifx_dma_playback_complete sample_bits hw_accept
      { ssp_handle := 7, stream_info := 2 }
      (some (playing 22 { ring4 with period_req_index := 3, period_cb_index := 2 })) =
      { ret := 0, status := { ssp_handle := 7, stream_info := 2 },
        str_info := some (playing 6 { ring4 with period_req_index := 1, period_cb_index := 0 }),
        trace := [Event.intel_mid_i2s_wr_req 7 4096 256 (playing 2 ring4),
          Event.intel_mid_i2s_command 7 ssp_cmd.SSP_CMD_ENABLE_SSP none,
          Event.snd_pcm_period_elapsed bt_playback.substream] } ∧
    intel_alsa_ifx_dma_playback_complete sample_bits hw_refuse
      { ssp_handle := 7, stream_info := 2 }
      (some (playing 22 { ring4 with period_req_index := 3, period_cb_index := 2 })) =
      { ret := 0, status := { ssp_handle := 7, stream_info := 2 },
        str_info := some (playing 2 ring4),
        trace := [Event.intel_mid_i2s_wr_req 7 4096 256 (playing 2 ring4),
          Event.snd_pcm_period_elapsed bt_playback.substream] } ∧
    test_bit 2 2 = false := by
  decide

/-- C7, amended: for a slot with RUNNING, DROPPED and STARTED all set, each
completion handler clears RUNNING and DROPPED, resets `period_req_index` and
`period_cb_index` to 0, runs the request function of its direction once on that
slot (the slice at index 0), notifies upstream and returns 0. When the channel
handle is present and the driver accepts the request, on return RUNNING is set,
`period_cb_index` is 0 and `period_req_index` is 1 (0 in a ring of at most one
period); when the handle is `NULL` or the driver rejects the request, on return
both indices are 0 and RUNNING is clear. -/
theorem restart_completion (b : ssp_stream_bits) (hw : Hw)
    (st : intel_alsa_stream_status) (s : intel_alsa_ifx_stream_info) (hb : b.distinct)
    (hr : test_bit b.INTEL_ALSA_SSP_STREAM_RUNNING s.stream_status = true)
    (hd : test_bit b.INTEL_ALSA_SSP_STREAM_DROPPED s.stream_status = true)
    (hs : test_bit b.INTEL_ALSA_SSP_STREAM_STARTED s.stream_status = true) :
    let s1 : intel_alsa_ifx_stream_info :=
      { s with
        stream_status := clear_bit b.INTEL_ALSA_SSP_STREAM_DROPPED (clear_bit b.INTEL_ALSA_SSP_STREAM_RUNNING s.stream_status),
        dma_slot := { s.dma_slot with period_cb_index := 0, period_req_index := 0 } }
    let s2 : intel_alsa_ifx_stream_info :=
      { s1 with
        stream_status := set_bit b.INTEL_ALSA_SSP_STREAM_RUNNING s1.stream_status,
        dma_slot := { s1.dma_slot with period_req_index :=
          (if s.dma_slot.period_index_max ≤ 1 then 0 else 1) } }
    let p := intel_alsa_ifx_dma_playback_req b hw st s1
    let c := intel_alsa_ifx_dma_capture_req b hw st s1
    (test_bit b.INTEL_ALSA_SSP_STREAM_RUNNING s1.stream_status = false ∧ test_bit b.INTEL_ALSA_SSP_STREAM_DROPPED s1.stream_status = false ∧
      test_bit b.INTEL_ALSA_SSP_STREAM_STARTED s1.stream_status = true ∧ test_bit b.INTEL_ALSA_SSP_STREAM_RUNNING s2.stream_status = true) ∧
    intel_alsa_ifx_dma_playback_complete b hw st (some s) =
      { ret := 0, status := st, str_info := p.str_info,
        trace := p.trace ++ [Event.snd_pcm_period_elapsed s.substream] } ∧
    intel_alsa_ifx_dma_capture_complete b hw st (some s) =
      { ret := 0, status := st, str_info := c.str_info,
        trace := c.trace ++ [Event.snd_pcm_period_elapsed s.substream] } ∧
    (st.ssp_handle ≠ 0 →
      hw.intel_mid_i2s_wr_req st.ssp_handle (wrap32 s.dma_slot.addr) (wrap32 s.dma_slot.length) = 0 →
      intel_alsa_ifx_dma_playback_complete b hw st (some s) =
        { ret := 0, status := st, str_info := some s2,
          trace := [Event.intel_mid_i2s_wr_req st.ssp_handle (wrap32 s.dma_slot.addr)
              (wrap32 s.dma_slot.length) s1,
            Event.intel_mid_i2s_command st.ssp_handle ssp_cmd.SSP_CMD_ENABLE_SSP none,
            Event.snd_pcm_period_elapsed s.substream] }) ∧
    (st.ssp_handle ≠ 0 →
      hw.intel_mid_i2s_rd_req st.ssp_handle (wrap32 s.dma_slot.addr) (wrap32 s.dma_slot.length) = 0 →
      intel_alsa_ifx_dma_capture_complete b hw st (some s) =
        { ret := 0, status := st, str_info := some s2,
          trace := [Event.intel_mid_i2s_rd_req st.ssp_handle (wrap32 s.dma_slot.addr)
              (wrap32 s.dma_slot.length) s1,
            Event.intel_mid_i2s_command st.ssp_handle ssp_cmd.SSP_CMD_ENABLE_SSP none,
            Event.snd_pcm_period_elapsed s.substream] }) ∧
    (st.ssp_handle = 0 ∨
        hw.intel_mid_i2s_wr_req st.ssp_handle (wrap32 s.dma_slot.addr) (wrap32 s.dma_slot.length) ≠ 0 →
      (intel_alsa_ifx_dma_playback_complete b hw st (some s)).ret = 0 ∧
      (intel_alsa_ifx_dma_playback_complete b hw st (some s)).str_info = some s1) ∧
    (st.ssp_handle = 0 ∨
        hw.intel_mid_i2s_rd_req st.ssp_handle (wrap32 s.dma_slot.addr) (wrap32 s.dma_slot.length) ≠ 0 →
      (intel_alsa_ifx_dma_capture_complete b hw st (some s)).ret = 0 ∧
      (intel_alsa_ifx_dma_capture_complete b hw st (some s)).str_info = some s1) := by
  intro s1 s2 p c
  obtain ⟨hsr, hsd, hrd⟩ := id hb
  have hR1 : test_bit b.INTEL_ALSA_SSP_STREAM_RUNNING s1.stream_status = false := by
    simp [s1, test_bit_clear_bit]
  have hP : intel_alsa_ifx_dma_playback_complete b hw st (some s) =
      { ret := 0, status := st, str_info := p.str_info,
        trace := p.trace ++ [Event.snd_pcm_period_elapsed s.substream] } := by
    rw [playback_complete_decision b hw st s hb hr]
    simp only [hd, hs, if_true, intel_alsa_ifx_dma_playback_complete_tail,
      playback_req_status]
  have hC : intel_alsa_ifx_dma_capture_complete b hw st (some s) =
      { ret := 0, status := st, str_info := c.str_info,
        trace := c.trace ++ [Event.snd_pcm_period_elapsed s.substream] } := by
    rw [capture_complete_decision b hw st s hb hr]
    simp only [hd, hs, if_true, intel_alsa_ifx_dma_capture_complete_tail,
      capture_req_status]
  refine ⟨⟨hR1, ?_, ?_, ?_⟩, hP, hC, ?_, ?_, ?_, ?_⟩
  · simp [s1, test_bit_clear_bit]
  · simp [s1, test_bit_clear_bit, hs, Ne.symm hsr, Ne.symm hsd]
  · simp [s2, test_bit_set_bit]
  · intro hh ha
    have hq := playback_req_accepted b hw st s1 hh (by simpa [s1, slice_address_first, slice_length] using ha) hR1
    rw [hP]
    simp only [p, hq]
    simp [s1, s2, slice_address_first, slice_length]
  · intro hh ha
    have hq := capture_req_accepted b hw st s1 hh (by simpa [s1, slice_address_first, slice_length] using ha) hR1
    rw [hC]
    simp only [c, hq]
    simp [s1, s2, slice_address_first, slice_length]
  · intro hn
    have hq := playback_req_not_accepted b hw st s1 (by simpa [s1, slice_address_first, slice_length] using hn)
    rw [hP]
    exact ⟨rfl, hq.2⟩
  · intro hn
    have hq := capture_req_not_accepted b hw st s1 (by simpa [s1, slice_address_first, slice_length] using hn)
    rw [hC]
    exact ⟨rfl, hq.2⟩

/-- A slot stopped and restarted at indices 3 and 2 of 4: the request function
runs on the slot with both indices 0 and only STARTED set. -/
theorem restart_completion_witness :
    (sample_bits.distinct ∧ test_bit 2 22 = true ∧ test_bit 4 22 = true ∧
      test_bit 1 22 = true) ∧
    intel_alsa_ifx_dma_playback_complete sample_bits hw_accept
      { ssp_handle := 7, stream_info := 2 }
      (some (playing 22 { ring4 with period_req_index := 3, period_cb_index := 2 })) =
      { ret := 0, status := { ssp_handle := 7, stream_info := 2 },
        str_info := (intel_alsa_ifx_dma_playback_req sample_bits hw_accept
          { ssp_handle := 7, stream_info := 2 } (playing 2 ring4)).str_info,
        trace := (intel_alsa_ifx_dma_playback_req sample_bits hw_accept
          { ssp_handle := 7, stream_info := 2 } (playing 2 ring4)).trace ++
          [Event.snd_pcm_period_elapsed bt_playback.substream] } :=
  ⟨by decide, (restart_completion sample_bits hw_accept
    { ssp_handle := 7, stream_info := 2 }
    (playing 22 { ring4 with period_req_index := 3, period_cb_index := 2 })
    (by decide) (by decide) (by decide) (by decide)).2.1⟩

/-- C8: for a slot with RUNNING and DROPPED set and STARTED clear, each completion
handler returns 0 with an empty trace (no request, no notification), leaves the
ring descriptor with both indices as it was, and leaves RUNNING and DROPPED clear
and STARTED clear. -/
theorem dropped_completion_is_terminal (b : ssp_stream_bits) (hw : Hw)
    (st : intel_alsa_stream_status) (s : intel_alsa_ifx_stream_info) (hb : b.distinct)
    (hr : test_bit b.INTEL_ALSA_SSP_STREAM_RUNNING s.stream_status = true)
    (hd : test_bit b.INTEL_ALSA_SSP_STREAM_DROPPED s.stream_status = true)
    (hs : test_bit b.INTEL_ALSA_SSP_STREAM_STARTED s.stream_status = false) :
    let s1 : intel_alsa_ifx_stream_info :=
      { s with stream_status := clear_bit b.INTEL_ALSA_SSP_STREAM_DROPPED (clear_bit b.INTEL_ALSA_SSP_STREAM_RUNNING s.stream_status) }
    intel_alsa_ifx_dma_playback_complete b hw st (some s) =
      { ret := 0, status := st, str_info := some s1, trace := [] } ∧
    intel_alsa_ifx_dma_capture_complete b hw st (some s) =
      { ret := 0, status := st, str_info := some s1, trace := [] } ∧
    s1.dma_slot = s.dma_slot ∧
    test_bit b.INTEL_ALSA_SSP_STREAM_RUNNING s1.stream_status = false ∧ test_bit b.INTEL_ALSA_SSP_STREAM_DROPPED s1.stream_status = false ∧
    test_bit b.INTEL_ALSA_SSP_STREAM_STARTED s1.stream_status = false := by
  intro s1
  refine ⟨?_, ?_, rfl, ?_, ?_, ?_⟩
  · rw [playback_complete_decision b hw st s hb hr]
    simp [hd, hs, intel_alsa_ifx_dma_playback_complete_tail, s1]
  · rw [capture_complete_decision b hw st s hb hr]
    simp [hd, hs, intel_alsa_ifx_dma_capture_complete_tail, s1]
  · simp [s1, test_bit_clear_bit]
  · simp [s1, test_bit_clear_bit]
  · simp [s1, test_bit_clear_bit, hs]

/-- A slot stopped while running and not restarted: status word 20 becomes 0, the
indices 3 and 2 stay. -/
theorem dropped_completion_is_terminal_witness :
    (sample_bits.distinct ∧ test_bit 2 20 = true ∧ test_bit 4 20 = true ∧
      test_bit 1 20 = false) ∧
    intel_alsa_ifx_dma_capture_complete sample_bits hw_accept
      { ssp_handle := 7, stream_info := 2 }
      (some (playing 20 { ring4 with period_req_index := 3, period_cb_index := 2 })) =
      { ret := 0, status := { ssp_handle := 7, stream_info := 2 },
        str_info := some { playing 20 { ring4 with period_req_index := 3, period_cb_index := 2 }
          with stream_status := clear_bit 4 (clear_bit 2 20) },
        trace := [] } :=
  ⟨by decide, (dropped_completion_is_terminal sample_bits hw_accept
    { ssp_handle := 7, stream_info := 2 }
    (playing 20 { ring4 with period_req_index := 3, period_cb_index := 2 })
    (by decide) (by decide) (by decide) (by decide)).2.1⟩

/-- C9: for a slot with RUNNING set and DROPPED and STARTED clear, each completion
handler returns `-EBUSY`, which is not 0, with an empty trace (no request, no
notification); RUNNING is cleared and the ring descriptor with both indices is
left as it was. -/
theorem unstarted_completion_is_spurious (b : ssp_stream_bits) (hw : Hw)
    (st : intel_alsa_stream_status) (s : intel_alsa_ifx_stream_info)
    (hr : test_bit b.INTEL_ALSA_SSP_STREAM_RUNNING s.stream_status = true)
    (hd : test_bit b.INTEL_ALSA_SSP_STREAM_DROPPED s.stream_status = false)
    (hs : test_bit b.INTEL_ALSA_SSP_STREAM_STARTED s.stream_status = false) :
    let s1 : intel_alsa_ifx_stream_info :=
      { s with stream_status := clear_bit b.INTEL_ALSA_SSP_STREAM_RUNNING s.stream_status }
    intel_alsa_ifx_dma_playback_complete b hw st (some s) =
      { ret := -EBUSY, status := st, str_info := some s1, trace := [] } ∧
    intel_alsa_ifx_dma_capture_complete b hw st (some s) =
      { ret := -EBUSY, status := st, str_info := some s1, trace := [] } ∧
    -EBUSY ≠ 0 ∧ s1.dma_slot = s.dma_slot := by
  intro s1
  have hd1 : test_bit b.INTEL_ALSA_SSP_STREAM_DROPPED (clear_bit b.INTEL_ALSA_SSP_STREAM_RUNNING s.stream_status) = false := by
    simp [test_bit_clear_bit, hd]
  have hc : clear_bit b.INTEL_ALSA_SSP_STREAM_DROPPED (clear_bit b.INTEL_ALSA_SSP_STREAM_RUNNING s.stream_status) =
      clear_bit b.INTEL_ALSA_SSP_STREAM_RUNNING s.stream_status := clear_bit_of_clear _ _ hd1
  have hs1 : test_bit b.INTEL_ALSA_SSP_STREAM_STARTED (clear_bit b.INTEL_ALSA_SSP_STREAM_RUNNING s.stream_status) = false := by
    simp [test_bit_clear_bit, hs]
  refine ⟨?_, ?_, by decide, rfl⟩
  · unfold intel_alsa_ifx_dma_playback_complete
    simp [test_and_clear_bit, hr, hd1, hc, hs1, s1]
  · unfold intel_alsa_ifx_dma_capture_complete
    simp [test_and_clear_bit, hr, hd1, hc, hs1, s1]

/-- A slot with only RUNNING set: the completion is refused with `-EBUSY`. -/
theorem unstarted_completion_is_spurious_witness :
    (test_bit 2 4 = true ∧ test_bit 4 4 = false ∧ test_bit 1 4 = false) ∧
    intel_alsa_ifx_dma_playback_complete sample_bits hw_accept
      { ssp_handle := 7, stream_info := 2 } (some (playing 4 ring4)) =
      { ret := -EBUSY, status := { ssp_handle := 7, stream_info := 2 },
        str_info := some { playing 4 ring4 with stream_status := clear_bit 2 4 },
        trace := [] } :=
  ⟨by decide, (unstarted_completion_is_spurious sample_bits hw_accept
    { ssp_handle := 7, stream_info := 2 } (playing 4 ring4)
    (by decide) (by decide) (by decide)).1⟩

/-- C10: for a slot on which RUNNING is clear at entry, each completion handler
returns `-EBUSY`, which is not 0, with an empty trace (no request, no
notification), and leaves the whole stream structure, status flags and both
indices included, as it was. -/
theorem completion_without_running_is_spurious (b : ssp_stream_bits) (hw : Hw)
    (st : intel_alsa_stream_status) (s : intel_alsa_ifx_stream_info)
    (hr : test_bit b.INTEL_ALSA_SSP_STREAM_RUNNING s.stream_status = false) :
    intel_alsa_ifx_dma_playback_complete b hw st (some s) =
      { ret := -EBUSY, status := st, str_info := some s, trace := [] } ∧
    intel_alsa_ifx_dma_capture_complete b hw st (some s) =
      { ret := -EBUSY, status := st, str_info := some s, trace := [] } ∧
    -EBUSY ≠ 0 := by
  have hc : clear_bit b.INTEL_ALSA_SSP_STREAM_RUNNING s.stream_status = s.stream_status := clear_bit_of_clear _ _ hr
  refine ⟨?_, ?_, by decide⟩
  · unfold intel_alsa_ifx_dma_playback_complete
    simp [test_and_clear_bit, hr, hc]
  · unfold intel_alsa_ifx_dma_capture_complete
    simp [test_and_clear_bit, hr, hc]

/-- A started slot with nothing in flight (status word 2): the completion is
refused and the slot is untouched. -/
theorem completion_without_running_is_spurious_witness :
    test_bit 2 2 = false ∧
    intel_alsa_ifx_dma_capture_complete sample_bits hw_accept
      { ssp_handle := 7, stream_info := 2 }
      (some (playing 2 { ring4 with period_req_index := 1, period_cb_index := 1 })) =
      { ret := -EBUSY, status := { ssp_handle := 7, stream_info := 2 },
        str_info := some (playing 2 { ring4 with period_req_index := 1, period_cb_index := 1 }),
        trace := [] } :=
  ⟨by decide, (completion_without_running_is_spurious sample_bits hw_accept
    { ssp_handle := 7, stream_info := 2 }
    (playing 2 { ring4 with period_req_index := 1, period_cb_index := 1 }) (by decide)).2.1⟩

/-! ## Request issuance: the contract -/

theorem set_bit_of_set (n w : Nat) (h : test_bit n w = true) : set_bit n w = w := by
  apply Nat.eq_of_testBit_eq
  intro i
  have := test_bit_set_bit i n w
  simp only [test_bit] at this h
  rw [this]
  by_cases hi : n = i
  · subst hi; simp [h]
  · simp [hi]

theorem wrap_req_eq_mod (i m : Nat) (h : i < m) :
    (if i + 1 ≥ m then 0 else i + 1) = (i + 1) % m := by
  split_ifs with hge
  · have he : i + 1 = m := by omega
    rw [he, Nat.mod_self]
  · rw [Nat.mod_eq_of_lt (by omega)]

/-- C12: a request function fails with `-EINVAL`, which is not 0, and calls nothing
when the channel handle is `NULL`, and fails with `-EINVAL` after the one
submission when the driver rejects it; in both cases the stream structure, with
`period_req_index`, `period_cb_index` and the RUNNING flag, is left as it was. -/
theorem request_issuance_failure_is_atomic (b : ssp_stream_bits) (hw : Hw)
    (st : intel_alsa_stream_status) (s : intel_alsa_ifx_stream_info) :
    (st.ssp_handle = 0 →
      intel_alsa_ifx_dma_playback_req b hw st s =
        { ret := -EINVAL, status := st, str_info := some s, trace := [] } ∧
      intel_alsa_ifx_dma_capture_req b hw st s =
        { ret := -EINVAL, status := st, str_info := some s, trace := [] }) ∧
    (st.ssp_handle ≠ 0 →
      hw.intel_mid_i2s_wr_req st.ssp_handle
        (slice_address s.dma_slot)
        (slice_length s.dma_slot) ≠ 0 →
      intel_alsa_ifx_dma_playback_req b hw st s =
        { ret := -EINVAL, status := st, str_info := some s,
          trace := [Event.intel_mid_i2s_wr_req st.ssp_handle
            (slice_address s.dma_slot)
            (slice_length s.dma_slot) s] }) ∧
    (st.ssp_handle ≠ 0 →
      hw.intel_mid_i2s_rd_req st.ssp_handle
        (slice_address s.dma_slot)
        (slice_length s.dma_slot) ≠ 0 →
      intel_alsa_ifx_dma_capture_req b hw st s =
        { ret := -EINVAL, status := st, str_info := some s,
          trace := [Event.intel_mid_i2s_rd_req st.ssp_handle
            (slice_address s.dma_slot)
            (slice_length s.dma_slot) s] }) ∧
    -EINVAL ≠ 0 := by
  refine ⟨?_, ?_, ?_, by decide⟩
  · intro hh
    constructor
    · unfold intel_alsa_ifx_dma_playback_req
      simp [hh]
    · unfold intel_alsa_ifx_dma_capture_req
      simp [hh]
  · intro hh hn
    unfold intel_alsa_ifx_dma_playback_req
    simp [hh, hn]
  · intro hh hn
    unfold intel_alsa_ifx_dma_capture_req
    simp [hh, hn]

/-- A rejected capture request on handle 7, and a playback request with no
handle. -/
theorem request_issuance_failure_is_atomic_witness :
    intel_alsa_ifx_dma_capture_req sample_bits hw_refuse { ssp_handle := 7, stream_info := 1 }
      (playing 2 { ring4 with period_req_index := 1 }) =
      { ret := -EINVAL, status := { ssp_handle := 7, stream_info := 1 },
        str_info := some (playing 2 { ring4 with period_req_index := 1 }),
        trace := [Event.intel_mid_i2s_rd_req 7 (4096 + 256 * 1) 256
          (playing 2 { ring4 with period_req_index := 1 })] } ∧
    intel_alsa_ifx_dma_playback_req sample_bits hw_accept intel_alsa_reset_ifx_status
      (playing 2 ring4) =
      { ret := -EINVAL, status := intel_alsa_reset_ifx_status,
        str_info := some (playing 2 ring4), trace := [] } :=
  ⟨(request_issuance_failure_is_atomic sample_bits hw_refuse
      { ssp_handle := 7, stream_info := 1 }
      (playing 2 { ring4 with period_req_index := 1 })).2.2.1 (by decide) (by decide),
    ((request_issuance_failure_is_atomic sample_bits hw_accept intel_alsa_reset_ifx_status
      (playing 2 ring4)).1 rfl).1⟩

/-- C13, as stated, fails. On a slot with RUNNING set, handle 7 and a driver that
accepts, the request function hands a second request to the driver, which accepts
it, enables the SSP and only then returns `-EBUSY`; the same through
`intel_alsa_ifx_transfer_data`. -/
theorem request_while_running_is_submitted :
    test_bit 2 6 = true ∧
    intel_alsa_ifx_dma_playback_req sample_bits hw_accept { ssp_handle := 7, stream_info := 2 }
      (playing 6 { ring4 with period_req_index := 1 }) =
      { ret := -EBUSY, status := { ssp_handle := 7, stream_info := 2 },
        str_info := some (playing 6 { ring4 with period_req_index := 1 }),
        trace := [Event.intel_mid_i2s_wr_req 7 (4096 + 256 * 1) 256
            (playing 6 { ring4 with period_req_index := 1 }),
          Event.intel_mid_i2s_command 7 ssp_cmd.SSP_CMD_ENABLE_SSP none] } ∧
    accepted hw_accept (intel_alsa_ifx_dma_playback_req sample_bits hw_accept
      { ssp_handle := 7, stream_info := 2 }
      (playing 6 { ring4 with period_req_index := 1 })).trace = 1 ∧
    requests (intel_alsa_ifx_transfer_data sample_bits hw_accept
      { ssp_handle := 7, stream_info := 2 }
      (playing 6 { ring4 with period_req_index := 1 })).trace = 1 := by
  decide

theorem playback_req_while_running (b : ssp_stream_bits) (hw : Hw)
    (st : intel_alsa_stream_status) (s : intel_alsa_ifx_stream_info)
    (hr : test_bit b.INTEL_ALSA_SSP_STREAM_RUNNING s.stream_status = true) :
    (intel_alsa_ifx_dma_playback_req b hw st s).ret ≠ 0 ∧
    (intel_alsa_ifx_dma_playback_req b hw st s).str_info = some s ∧
    (st.ssp_handle ≠ 0 →
      hw.intel_mid_i2s_wr_req st.ssp_handle (slice_address s.dma_slot)
        (slice_length s.dma_slot) = 0 →
      (intel_alsa_ifx_dma_playback_req b hw st s).ret = -EBUSY) ∧
    (st.ssp_handle = 0 ∨
        hw.intel_mid_i2s_wr_req st.ssp_handle (slice_address s.dma_slot)
          (slice_length s.dma_slot) ≠ 0 →
      (intel_alsa_ifx_dma_playback_req b hw st s).ret = -EINVAL) := by
  have hset := set_bit_of_set _ _ hr
  unfold intel_alsa_ifx_dma_playback_req
  by_cases hh : st.ssp_handle = 0
  · simp [hh, EINVAL]
  · by_cases ha : hw.intel_mid_i2s_wr_req st.ssp_handle (slice_address s.dma_slot)
        (slice_length s.dma_slot) = 0
    · simp [hh, ha, test_and_set_bit, hr, hset, EBUSY]
    · simp [hh, ha, EINVAL]

theorem capture_req_while_running (b : ssp_stream_bits) (hw : Hw)
    (st : intel_alsa_stream_status) (s : intel_alsa_ifx_stream_info)
    (hr : test_bit b.INTEL_ALSA_SSP_STREAM_RUNNING s.stream_status = true) :
    (intel_alsa_ifx_dma_capture_req b hw st s).ret ≠ 0 ∧
    (intel_alsa_ifx_dma_capture_req b hw st s).str_info = some s ∧
    (st.ssp_handle ≠ 0 →
      hw.intel_mid_i2s_rd_req st.ssp_handle (slice_address s.dma_slot)
        (slice_length s.dma_slot) = 0 →
      (intel_alsa_ifx_dma_capture_req b hw st s).ret = -EBUSY) ∧
    (st.ssp_handle = 0 ∨
        hw.intel_mid_i2s_rd_req st.ssp_handle (slice_address s.dma_slot)
          (slice_length s.dma_slot) ≠ 0 →
      (intel_alsa_ifx_dma_capture_req b hw st s).ret = -EINVAL) := by
  have hset := set_bit_of_set _ _ hr
  unfold intel_alsa_ifx_dma_capture_req
  by_cases hh : st.ssp_handle = 0
  · simp [hh, EINVAL]
  · by_cases ha : hw.intel_mid_i2s_rd_req st.ssp_handle (slice_address s.dma_slot)
        (slice_length s.dma_slot) = 0
    · simp [hh, ha, test_and_set_bit, hr, hset, EBUSY]
    · simp [hh, ha, EINVAL]

/-- C13, amended: on a slot with RUNNING already set, each request function returns
a non-zero error, `-EBUSY` after a submission the driver accepted and `-EINVAL`
when the channel handle is `NULL` or the driver rejected the submission, and
leaves the stream structure, `period_req_index` included, as it was; RUNNING is
tested only after the submission, so the call hands exactly one request to the
driver when the channel handle is present and none when it is `NULL`.
`intel_alsa_ifx_transfer_data` leaves the stream structure as it was too and hands
over at most one request. -/
theorem request_while_running_fails (b : ssp_stream_bits) (hw : Hw)
    (st : intel_alsa_stream_status) (s : intel_alsa_ifx_stream_info)
    (hr : test_bit b.INTEL_ALSA_SSP_STREAM_RUNNING s.stream_status = true) :
    ((intel_alsa_ifx_dma_playback_req b hw st s).ret ≠ 0 ∧
      (intel_alsa_ifx_dma_playback_req b hw st s).str_info = some s ∧
      requests (intel_alsa_ifx_dma_playback_req b hw st s).trace =
        (if st.ssp_handle = 0 then 0 else 1) ∧
      (st.ssp_handle ≠ 0 →
        hw.intel_mid_i2s_wr_req st.ssp_handle (slice_address s.dma_slot)
          (slice_length s.dma_slot) = 0 →
        (intel_alsa_ifx_dma_playback_req b hw st s).ret = -EBUSY) ∧
      (st.ssp_handle = 0 ∨
          hw.intel_mid_i2s_wr_req st.ssp_handle (slice_address s.dma_slot)
            (slice_length s.dma_slot) ≠ 0 →
        (intel_alsa_ifx_dma_playback_req b hw st s).ret = -EINVAL)) ∧
    ((intel_alsa_ifx_dma_capture_req b hw st s).ret ≠ 0 ∧
      (intel_alsa_ifx_dma_capture_req b hw st s).str_info = some s ∧
      requests (intel_alsa_ifx_dma_capture_req b hw st s).trace =
        (if st.ssp_handle = 0 then 0 else 1) ∧
      (st.ssp_handle ≠ 0 →
        hw.intel_mid_i2s_rd_req st.ssp_handle (slice_address s.dma_slot)
          (slice_length s.dma_slot) = 0 →
        (intel_alsa_ifx_dma_capture_req b hw st s).ret = -EBUSY) ∧
      (st.ssp_handle = 0 ∨
          hw.intel_mid_i2s_rd_req st.ssp_handle (slice_address s.dma_slot)
            (slice_length s.dma_slot) ≠ 0 →
        (intel_alsa_ifx_dma_capture_req b hw st s).ret = -EINVAL)) ∧
    (intel_alsa_ifx_transfer_data b hw st s).str_info = some s ∧
    requests (intel_alsa_ifx_transfer_data b hw st s).trace ≤ 1 := by
  have hp := playback_req_while_running b hw st s hr
  have hc := capture_req_while_running b hw st s hr
  have hpr := (playback_req_requests b hw st s).1
  have hcr := (capture_req_requests b hw st s).1
  refine ⟨⟨hp.1, hp.2.1, hpr, hp.2.2.1, hp.2.2.2⟩, ⟨hc.1, hc.2.1, hcr, hc.2.2.1, hc.2.2.2⟩,
    ?_, ?_⟩
  · unfold intel_alsa_ifx_transfer_data
    split_ifs
    · exact hp.2.1
    · exact hc.2.1
    · rfl
  · unfold intel_alsa_ifx_transfer_data
    split_ifs
    · rw [hpr]; split_ifs <;> omega
    · rw [hcr]; split_ifs <;> omega
    · simp [requests]

/-- A running slot at request index 1: the request is refused with `-EBUSY` by an
accepting driver and with `-EINVAL` by a rejecting one, and the index stays 1. -/
theorem request_while_running_fails_witness :
    test_bit 2 6 = true ∧
    (intel_alsa_ifx_dma_playback_req sample_bits hw_accept { ssp_handle := 7, stream_info := 2 }
      (playing 6 { ring4 with period_req_index := 1 })).str_info =
      some (playing 6 { ring4 with period_req_index := 1 }) ∧
    (intel_alsa_ifx_dma_playback_req sample_bits hw_accept { ssp_handle := 7, stream_info := 2 }
      (playing 6 { ring4 with period_req_index := 1 })).ret = -EBUSY ∧
    (intel_alsa_ifx_dma_playback_req sample_bits hw_refuse { ssp_handle := 7, stream_info := 2 }
      (playing 6 { ring4 with period_req_index := 1 })).ret = -EINVAL :=
  ⟨by decide,
    (request_while_running_fails sample_bits hw_accept
      { ssp_handle := 7, stream_info := 2 } (playing 6 { ring4 with period_req_index := 1 })
      (by decide)).1.2.1,
    (request_while_running_fails sample_bits hw_accept
      { ssp_handle := 7, stream_info := 2 } (playing 6 { ring4 with period_req_index := 1 })
      (by decide)).1.2.2.2.1 (by decide) rfl,
    (request_while_running_fails sample_bits hw_refuse
      { ssp_handle := 7, stream_info := 2 } (playing 6 { ring4 with period_req_index := 1 })
      (by decide)).1.2.2.2.2 (Or.inr (by decide))⟩

theorem playback_req_tracks_running (b : ssp_stream_bits) (hw : Hw)
    (st : intel_alsa_stream_status) (s : intel_alsa_ifx_stream_info)
    (hr : test_bit b.INTEL_ALSA_SSP_STREAM_RUNNING s.stream_status = false) :
    ∃ s1, (intel_alsa_ifx_dma_playback_req b hw st s).str_info = some s1 ∧
      accepted hw (intel_alsa_ifx_dma_playback_req b hw st s).trace ≤ 1 ∧
      (test_bit b.INTEL_ALSA_SSP_STREAM_RUNNING s1.stream_status = true ↔
        accepted hw (intel_alsa_ifx_dma_playback_req b hw st s).trace = 1) := by
  by_cases hh : st.ssp_handle = 0
  · refine ⟨s, ?_, ?_, ?_⟩ <;> simp [intel_alsa_ifx_dma_playback_req, hh, accepted, hr]
  · by_cases ha : hw.intel_mid_i2s_wr_req st.ssp_handle
        (slice_address s.dma_slot)
        (slice_length s.dma_slot) = 0
    · rw [playback_req_accepted b hw st s hh ha hr]
      refine ⟨_, rfl, ?_, ?_⟩
      · simp [accepted, ha]
      · simp [accepted, ha, test_bit_set_bit]
    · refine ⟨s, ?_, ?_, ?_⟩ <;>
        simp [intel_alsa_ifx_dma_playback_req, hh, ha, accepted, hr]

theorem playback_tail_tracks_running (b : ssp_stream_bits) (hw : Hw)
    (st : intel_alsa_stream_status) (s : intel_alsa_ifx_stream_info)
    (call_back reset_index : Bool)
    (hr : test_bit b.INTEL_ALSA_SSP_STREAM_RUNNING s.stream_status = false) :
    ∃ s1, (intel_alsa_ifx_dma_playback_complete_tail b hw st s call_back
        reset_index).str_info = some s1 ∧
      accepted hw (intel_alsa_ifx_dma_playback_complete_tail b hw st s call_back
        reset_index).trace ≤ 1 ∧
      (test_bit b.INTEL_ALSA_SSP_STREAM_RUNNING s1.stream_status = true ↔
        accepted hw (intel_alsa_ifx_dma_playback_complete_tail b hw st s call_back
          reset_index).trace = 1) := by
  have happ : ∀ tr : List Event,
      accepted hw (tr ++ [Event.snd_pcm_period_elapsed s.substream]) = accepted hw tr := by
    intro tr
    simp [accepted, List.countP_append]
  cases call_back with
  | false =>
    refine ⟨s, ?_, ?_, ?_⟩ <;>
      simp [intel_alsa_ifx_dma_playback_complete_tail, accepted, hr]
  | true =>
    unfold intel_alsa_ifx_dma_playback_complete_tail
    simp only [if_true, happ]
    exact playback_req_tracks_running b hw st _ hr

theorem playback_complete_tracks_running (b : ssp_stream_bits) (hw : Hw)
    (st : intel_alsa_stream_status) (s : intel_alsa_ifx_stream_info)
    (hr : test_bit b.INTEL_ALSA_SSP_STREAM_RUNNING s.stream_status = true) :
    ∃ s1, (intel_alsa_ifx_dma_playback_complete b hw st (some s)).str_info = some s1 ∧
      accepted hw (intel_alsa_ifx_dma_playback_complete b hw st (some s)).trace ≤ 1 ∧
      (test_bit b.INTEL_ALSA_SSP_STREAM_RUNNING s1.stream_status = true ↔
        accepted hw (intel_alsa_ifx_dma_playback_complete b hw st (some s)).trace = 1) := by
  have h1 : test_bit b.INTEL_ALSA_SSP_STREAM_RUNNING (clear_bit b.INTEL_ALSA_SSP_STREAM_DROPPED (clear_bit b.INTEL_ALSA_SSP_STREAM_RUNNING s.stream_status)) = false := by
    simp [test_bit_clear_bit]
  unfold intel_alsa_ifx_dma_playback_complete
  simp only [test_and_clear_bit, hr, if_true]
  split_ifs
  · exact playback_tail_tracks_running b hw st _ true true h1
  · exact playback_tail_tracks_running b hw st _ false false h1
  · exact playback_tail_tracks_running b hw st _ true false h1
  · refine ⟨_, rfl, ?_, ?_⟩ <;> simp [accepted, h1]

theorem capture_req_tracks_running (b : ssp_stream_bits) (hw : Hw)
    (st : intel_alsa_stream_status) (s : intel_alsa_ifx_stream_info)
    (hr : test_bit b.INTEL_ALSA_SSP_STREAM_RUNNING s.stream_status = false) :
    ∃ s1, (intel_alsa_ifx_dma_capture_req b hw st s).str_info = some s1 ∧
      accepted hw (intel_alsa_ifx_dma_capture_req b hw st s).trace ≤ 1 ∧
      (test_bit b.INTEL_ALSA_SSP_STREAM_RUNNING s1.stream_status = true ↔
        accepted hw (intel_alsa_ifx_dma_capture_req b hw st s).trace = 1) := by
  by_cases hh : st.ssp_handle = 0
  · refine ⟨s, ?_, ?_, ?_⟩ <;> simp [intel_alsa_ifx_dma_capture_req, hh, accepted, hr]
  · by_cases ha : hw.intel_mid_i2s_rd_req st.ssp_handle
        (slice_address s.dma_slot)
        (slice_length s.dma_slot) = 0
    · rw [capture_req_accepted b hw st s hh ha hr]
      refine ⟨_, rfl, ?_, ?_⟩
      · simp [accepted, ha]
      · simp [accepted, ha, test_bit_set_bit]
    · refine ⟨s, ?_, ?_, ?_⟩ <;>
        simp [intel_alsa_ifx_dma_capture_req, hh, ha, accepted, hr]

theorem capture_tail_tracks_running (b : ssp_stream_bits) (hw : Hw)
    (st : intel_alsa_stream_status) (s : intel_alsa_ifx_stream_info)
    (call_back reset_index : Bool)
    (hr : test_bit b.INTEL_ALSA_SSP_STREAM_RUNNING s.stream_status = false) :
    ∃ s1, (intel_alsa_ifx_dma_capture_complete_tail b hw st s call_back
        reset_index).str_info = some s1 ∧
      accepted hw (intel_alsa_ifx_dma_capture_complete_tail b hw st s call_back
        reset_index).trace ≤ 1 ∧
      (test_bit b.INTEL_ALSA_SSP_STREAM_RUNNING s1.stream_status = true ↔
        accepted hw (intel_alsa_ifx_dma_capture_complete_tail b hw st s call_back
          reset_index).trace = 1) := by
  have happ : ∀ tr : List Event,
      accepted hw (tr ++ [Event.snd_pcm_period_elapsed s.substream]) = accepted hw tr := by
    intro tr
    simp [accepted, List.countP_append]
  cases call_back with
  | false =>
    refine ⟨s, ?_, ?_, ?_⟩ <;>
      simp [intel_alsa_ifx_dma_capture_complete_tail, accepted, hr]
  | true =>
    unfold intel_alsa_ifx_dma_capture_complete_tail
    simp only [if_true, happ]
    exact capture_req_tracks_running b hw st _ hr

theorem capture_complete_tracks_running (b : ssp_stream_bits) (hw : Hw)
    (st : intel_alsa_stream_status) (s : intel_alsa_ifx_stream_info)
    (hr : test_bit b.INTEL_ALSA_SSP_STREAM_RUNNING s.stream_status = true) :
    ∃ s1, (intel_alsa_ifx_dma_capture_complete b hw st (some s)).str_info = some s1 ∧
      accepted hw (intel_alsa_ifx_dma_capture_complete b hw st (some s)).trace ≤ 1 ∧
      (test_bit b.INTEL_ALSA_SSP_STREAM_RUNNING s1.stream_status = true ↔
        accepted hw (intel_alsa_ifx_dma_capture_complete b hw st (some s)).trace = 1) := by
  have h1 : test_bit b.INTEL_ALSA_SSP_STREAM_RUNNING (clear_bit b.INTEL_ALSA_SSP_STREAM_DROPPED (clear_bit b.INTEL_ALSA_SSP_STREAM_RUNNING s.stream_status)) = false := by
    simp [test_bit_clear_bit]
  unfold intel_alsa_ifx_dma_capture_complete
  simp only [test_and_clear_bit, hr, if_true]
  split_ifs
  · exact capture_tail_tracks_running b hw st _ true true h1
  · exact capture_tail_tracks_running b hw st _ false false h1
  · exact capture_tail_tracks_running b hw st _ true false h1
  · refine ⟨_, rfl, ?_, ?_⟩ <;> simp [accepted, h1]

theorem transfer_data_tracks_running (b : ssp_stream_bits) (hw : Hw)
    (st : intel_alsa_stream_status) (s : intel_alsa_ifx_stream_info)
    (hr : test_bit b.INTEL_ALSA_SSP_STREAM_RUNNING s.stream_status = false) :
    ∃ s1, (intel_alsa_ifx_transfer_data b hw st s).str_info = some s1 ∧
      accepted hw (intel_alsa_ifx_transfer_data b hw st s).trace ≤ 1 ∧
      (test_bit b.INTEL_ALSA_SSP_STREAM_RUNNING s1.stream_status = true ↔
        accepted hw (intel_alsa_ifx_transfer_data b hw st s).trace = 1) := by
  unfold intel_alsa_ifx_transfer_data
  split_ifs
  · exact playback_req_tracks_running b hw st s hr
  · exact capture_req_tracks_running b hw st s hr
  · refine ⟨s, rfl, ?_, ?_⟩ <;> simp [accepted, hr]

theorem dma_complete_tracks_running (b : ssp_stream_bits) (hw : Hw)
    (st : intel_alsa_stream_status) (s : intel_alsa_ifx_stream_info)
    (hr : test_bit b.INTEL_ALSA_SSP_STREAM_RUNNING s.stream_status = true) :
    ∃ s1, (intel_alsa_ifx_dma_complete b hw st s).str_info = some s1 ∧
      accepted hw (intel_alsa_ifx_dma_complete b hw st s).trace ≤ 1 ∧
      (test_bit b.INTEL_ALSA_SSP_STREAM_RUNNING s1.stream_status = true ↔
        accepted hw (intel_alsa_ifx_dma_complete b hw st s).trace = 1) := by
  unfold intel_alsa_ifx_dma_complete
  split_ifs
  · exact playback_complete_tracks_running b hw st s hr
  · exact capture_complete_tracks_running b hw st s hr

theorem pipe_step_keeps_invariant (b : ssp_stream_bits) (ps ps1 : PipeState) (c : PipeStep)
    (hinv : pipe_invariant b ps)
    (hidle : (match c with
      | PipeStep.issue _ _ => !test_bit b.INTEL_ALSA_SSP_STREAM_RUNNING ps.str_info.stream_status
      | PipeStep.complete _ _ => true) = true)
    (hstep : pipe_step b ps c = some ps1) : pipe_invariant b ps1 := by
  obtain ⟨hle, hiff⟩ := hinv
  cases c with
  | issue hw st =>
    simp only [Bool.not_eq_true'] at hidle
    have h0 : ps.outstanding = 0 := by
      by_contra hne
      have h1 : ps.outstanding = 1 := by omega
      rw [hiff.mpr h1] at hidle
      exact Bool.noConfusion hidle
    obtain ⟨s1, hs, hacc, hrun⟩ := transfer_data_tracks_running b hw st ps.str_info hidle
    simp only [pipe_step, Option.some.injEq] at hstep
    subst hstep
    simp only [pipe_invariant, hs, Option.getD_some, h0, Nat.zero_add]
    exact ⟨hacc, hrun⟩
  | complete hw st =>
    simp only [pipe_step] at hstep
    split_ifs at hstep with h0
    have h1 : ps.outstanding = 1 := by omega
    obtain ⟨s1, hs, hacc, hrun⟩ :=
      dma_complete_tracks_running b hw st ps.str_info (hiff.mpr h1)
    simp only [Option.some.injEq] at hstep
    subst hstep
    simp only [pipe_invariant, hs, Option.getD_some, h1, Nat.sub_self, Nat.zero_add]
    exact ⟨hacc, hrun⟩

theorem pipe_run_keeps_invariant (b : ssp_stream_bits) (steps : List PipeStep) :
    ∀ ps ps1 : PipeState, pipe_invariant b ps → issues_when_idle b ps steps = true →
      pipe_run b ps steps = some ps1 → pipe_invariant b ps1 := by
  induction steps with
  | nil =>
    intro ps ps1 hinv _ hrun
    simp only [pipe_run, Option.some.injEq] at hrun
    subst hrun
    exact hinv
  | cons c cs ih =>
    intro ps ps1 hinv hidle hrun
    simp only [pipe_run] at hrun
    simp only [issues_when_idle, Bool.and_eq_true] at hidle
    cases hstep : pipe_step b ps c with
    | none => rw [hstep] at hrun; exact Option.noConfusion hrun
    | some ps2 =>
      rw [hstep] at hrun hidle
      exact ih ps2 ps1 (pipe_step_keeps_invariant b ps ps2 c hinv hidle.1 hstep) hidle.2 hrun

/-- C14, as stated, fails. From an opened, idle BT playback slot, two issuances in a
row that the driver both accepts leave two requests outstanding. -/
theorem two_issuances_leave_two_outstanding :
    pipe_run sample_bits { str_info := playing 2 ring4, outstanding := 0 }
      [PipeStep.issue hw_accept { ssp_handle := 7, stream_info := 2 },
        PipeStep.issue hw_accept { ssp_handle := 7, stream_info := 2 }] =
      some { str_info := playing 6 { ring4 with period_req_index := 1 }, outstanding := 2 } ∧
    ¬ pipe_invariant sample_bits
      { str_info := playing 6 { ring4 with period_req_index := 1 }, outstanding := 2 } := by
  decide

/-- C14, amended: from a slot with RUNNING clear and nothing outstanding, after any
sequence of request issuances (`intel_alsa_ifx_transfer_data`) and completions,
one completion per accepted request, in which every issuance happens while
RUNNING is clear, at most one request is outstanding and RUNNING is set if and
only if one is. -/
theorem running_invariant_of_idle_issues (b : ssp_stream_bits)
    (s : intel_alsa_ifx_stream_info) (steps : List PipeStep) (ps : PipeState)
    (h0 : test_bit b.INTEL_ALSA_SSP_STREAM_RUNNING s.stream_status = false)
    (hidle : issues_when_idle b { str_info := s, outstanding := 0 } steps = true)
    (hrun : pipe_run b { str_info := s, outstanding := 0 } steps = some ps) :
    ps.outstanding ≤ 1 ∧
    (test_bit b.INTEL_ALSA_SSP_STREAM_RUNNING ps.str_info.stream_status = true ↔ ps.outstanding = 1) :=
  pipe_run_keeps_invariant b steps { str_info := s, outstanding := 0 } ps
    ⟨Nat.zero_le 1, by simp [h0]⟩ hidle hrun

/-- An issuance, a completion that re-arms, a completion whose re-arm the driver
rejects, and a new issuance: one request is outstanding and RUNNING is set. -/
theorem running_invariant_of_idle_issues_witness :
    pipe_run sample_bits { str_info := playing 2 ring4, outstanding := 0 }
      [PipeStep.issue hw_accept { ssp_handle := 7, stream_info := 2 },
        PipeStep.complete hw_accept { ssp_handle := 7, stream_info := 2 },
        PipeStep.complete hw_refuse { ssp_handle := 7, stream_info := 2 },
        PipeStep.issue hw_accept { ssp_handle := 7, stream_info := 2 }] =
      some { str_info := playing 6 { ring4 with period_req_index := 3, period_cb_index := 2 },
             outstanding := 1 } ∧
    (1 ≤ 1 ∧ (test_bit 2 6 = true ↔ 1 = 1)) :=
  ⟨by decide, running_invariant_of_idle_issues sample_bits (playing 2 ring4)
    [PipeStep.issue hw_accept { ssp_handle := 7, stream_info := 2 },
      PipeStep.complete hw_accept { ssp_handle := 7, stream_info := 2 },
      PipeStep.complete hw_refuse { ssp_handle := 7, stream_info := 2 },
      PipeStep.issue hw_accept { ssp_handle := 7, stream_info := 2 }]
    { str_info := playing 6 { ring4 with period_req_index := 3, period_cb_index := 2 },
      outstanding := 1 }
    (by decide) (by decide) (by decide)⟩

/-! ## Ring indices -/

theorem playback_req_keeps_range (b : ssp_stream_bits) (hw : Hw)
    (st : intel_alsa_stream_status) (s : intel_alsa_ifx_stream_info)
    (h : indices_in_range s) :
    ∃ s1, (intel_alsa_ifx_dma_playback_req b hw st s).str_info = some s1 ∧
      s1.dma_slot.period_index_max = s.dma_slot.period_index_max ∧ indices_in_range s1 := by
  unfold indices_in_range at h
  unfold intel_alsa_ifx_dma_playback_req
  dsimp only
  split_ifs <;> refine ⟨_, rfl, rfl, ?_⟩ <;> simp only [indices_in_range] <;> omega

theorem playback_tail_keeps_range (b : ssp_stream_bits) (hw : Hw)
    (st : intel_alsa_stream_status) (s : intel_alsa_ifx_stream_info)
    (call_back reset_index : Bool) (h : indices_in_range s) :
    ∃ s1, (intel_alsa_ifx_dma_playback_complete_tail b hw st s call_back
        reset_index).str_info = some s1 ∧
      s1.dma_slot.period_index_max = s.dma_slot.period_index_max ∧ indices_in_range s1 := by
  cases call_back with
  | false => exact ⟨s, rfl, rfl, h⟩
  | true =>
    unfold intel_alsa_ifx_dma_playback_complete_tail
    simp only [if_true]
    unfold indices_in_range at h
    split_ifs
    · exact playback_req_keeps_range b hw st _ (by simp only [indices_in_range]; omega)
    · exact playback_req_keeps_range b hw st _ (by simp only [indices_in_range]; omega)
    · exact playback_req_keeps_range b hw st _ (by simp only [indices_in_range]; omega)

theorem playback_complete_keeps_range (b : ssp_stream_bits) (hw : Hw)
    (st : intel_alsa_stream_status) (s : intel_alsa_ifx_stream_info)
    (h : indices_in_range s) :
    ∃ s1, (intel_alsa_ifx_dma_playback_complete b hw st (some s)).str_info = some s1 ∧
      s1.dma_slot.period_index_max = s.dma_slot.period_index_max ∧ indices_in_range s1 := by
  unfold intel_alsa_ifx_dma_playback_complete
  dsimp only
  split_ifs
  · exact playback_tail_keeps_range b hw st _ true true h
  · exact playback_tail_keeps_range b hw st _ false false h
  · exact playback_tail_keeps_range b hw st _ true false h
  · exact ⟨_, rfl, rfl, h⟩
  · exact ⟨_, rfl, rfl, h⟩

theorem capture_req_keeps_range (b : ssp_stream_bits) (hw : Hw)
    (st : intel_alsa_stream_status) (s : intel_alsa_ifx_stream_info)
    (h : indices_in_range s) :
    ∃ s1, (intel_alsa_ifx_dma_capture_req b hw st s).str_info = some s1 ∧
      s1.dma_slot.period_index_max = s.dma_slot.period_index_max ∧ indices_in_range s1 := by
  unfold indices_in_range at h
  unfold intel_alsa_ifx_dma_capture_req
  dsimp only
  split_ifs <;> refine ⟨_, rfl, rfl, ?_⟩ <;> simp only [indices_in_range] <;> omega

theorem capture_tail_keeps_range (b : ssp_stream_bits) (hw : Hw)
    (st : intel_alsa_stream_status) (s : intel_alsa_ifx_stream_info)
    (call_back reset_index : Bool) (h : indices_in_range s) :
    ∃ s1, (intel_alsa_ifx_dma_capture_complete_tail b hw st s call_back
        reset_index).str_info = some s1 ∧
      s1.dma_slot.period_index_max = s.dma_slot.period_index_max ∧ indices_in_range s1 := by
  cases call_back with
  | false => exact ⟨s, rfl, rfl, h⟩
  | true =>
    unfold intel_alsa_ifx_dma_capture_complete_tail
    simp only [if_true]
    unfold indices_in_range at h
    split_ifs
    · exact capture_req_keeps_range b hw st _ (by simp only [indices_in_range]; omega)
    · exact capture_req_keeps_range b hw st _ (by simp only [indices_in_range]; omega)
    · exact capture_req_keeps_range b hw st _ (by simp only [indices_in_range]; omega)

theorem capture_complete_keeps_range (b : ssp_stream_bits) (hw : Hw)
    (st : intel_alsa_stream_status) (s : intel_alsa_ifx_stream_info)
    (h : indices_in_range s) :
    ∃ s1, (intel_alsa_ifx_dma_capture_complete b hw st (some s)).str_info = some s1 ∧
      s1.dma_slot.period_index_max = s.dma_slot.period_index_max ∧ indices_in_range s1 := by
  unfold intel_alsa_ifx_dma_capture_complete
  dsimp only
  split_ifs
  · exact capture_tail_keeps_range b hw st _ true true h
  · exact capture_tail_keeps_range b hw st _ false false h
  · exact capture_tail_keeps_range b hw st _ true false h
  · exact ⟨_, rfl, rfl, h⟩
  · exact ⟨_, rfl, rfl, h⟩

theorem slot_step_keeps_range (b : ssp_stream_bits) (s : intel_alsa_ifx_stream_info)
    (c : SlotStep) (h : indices_in_range s) :
    (SlotStep.apply b s c).dma_slot.period_index_max = s.dma_slot.period_index_max ∧
    indices_in_range (SlotStep.apply b s c) := by
  cases c with
  | transfer_data hw st =>
    simp only [SlotStep.apply, intel_alsa_ifx_transfer_data]
    split_ifs
    · obtain ⟨s1, hs, hm, hr⟩ := playback_req_keeps_range b hw st s h
      rw [hs]; exact ⟨hm, hr⟩
    · obtain ⟨s1, hs, hm, hr⟩ := capture_req_keeps_range b hw st s h
      rw [hs]; exact ⟨hm, hr⟩
    · exact ⟨rfl, h⟩
  | playback_complete hw st =>
    obtain ⟨s1, hs, hm, hr⟩ := playback_complete_keeps_range b hw st s h
    simp only [SlotStep.apply, hs]
    exact ⟨hm, hr⟩
  | capture_complete hw st =>
    obtain ⟨s1, hs, hm, hr⟩ := capture_complete_keeps_range b hw st s h
    simp only [SlotStep.apply, hs]
    exact ⟨hm, hr⟩
  | flags w => exact ⟨rfl, h⟩

theorem slot_run_keeps_range (b : ssp_stream_bits) (steps : List SlotStep) :
    ∀ s : intel_alsa_ifx_stream_info, indices_in_range s →
      (slot_run b s steps).dma_slot.period_index_max = s.dma_slot.period_index_max ∧
      indices_in_range (slot_run b s steps) := by
  induction steps with
  | nil => intro s h; exact ⟨rfl, h⟩
  | cons c cs ih =>
    intro s h
    obtain ⟨hm, hr⟩ := slot_step_keeps_range b s c h
    obtain ⟨hm2, hr2⟩ := ih (SlotStep.apply b s c) hr
    exact ⟨by rw [← hm]; exact hm2, hr2⟩

theorem open_alloc_str_info (hw : Hw) (st : intel_alsa_stream_status)
    (s : intel_alsa_ifx_stream_info) (tr : List Event) :
    (intel_alsa_ifx_open_alloc hw st s tr).str_info = some s := by
  unfold intel_alsa_ifx_open_alloc
  split_ifs <;> rfl

theorem open_acquire_str_info (hw : Hw) (st : intel_alsa_stream_status)
    (s : intel_alsa_ifx_stream_info) (d : Nat) (open_ifx : Bool) (tr : List Event) :
    (intel_alsa_ifx_open_acquire hw st s d open_ifx tr).str_info = some s := by
  unfold intel_alsa_ifx_open_acquire
  dsimp only
  split_ifs <;> first | rfl | exact open_alloc_str_info _ _ _ _

theorem open_str_info (hw : Hw) (st : intel_alsa_stream_status)
    (s0 : intel_alsa_ifx_stream_info) :
    (intel_alsa_ifx_open hw st (some s0)).str_info =
      some { s0 with dma_slot :=
        { s0.dma_slot with period_req_index := 0, period_cb_index := 0 } } := by
  unfold intel_alsa_ifx_open
  dsimp only
  split_ifs <;> first | rfl | exact open_acquire_str_info _ _ _ _ _ _

/-- C15: for a stream with `period_index_max >= 1`, whatever `intel_alsa_ifx_open`
returns, in the stream structure it leaves and after any sequence of request
issuances, playback or capture completions and writes of any value to the status
flags, with any answers of the driver, `period_index_max` is unchanged and
`period_req_index` and `period_cb_index` are both below it. -/
theorem indices_stay_in_range (b : ssp_stream_bits) (hw : Hw)
    (st : intel_alsa_stream_status) (s0 : intel_alsa_ifx_stream_info)
    (steps : List SlotStep) (hmax : 1 ≤ s0.dma_slot.period_index_max) :
    ∃ s, (intel_alsa_ifx_open hw st (some s0)).str_info = some s ∧
      (slot_run b s steps).dma_slot.period_index_max = s0.dma_slot.period_index_max ∧
      (slot_run b s steps).dma_slot.period_req_index < s0.dma_slot.period_index_max ∧
      (slot_run b s steps).dma_slot.period_cb_index < s0.dma_slot.period_index_max := by
  refine ⟨_, open_str_info hw st s0, ?_⟩
  have h := slot_run_keeps_range b steps
    { s0 with dma_slot := { s0.dma_slot with period_req_index := 0, period_cb_index := 0 } }
    (by simp only [indices_in_range]; omega)
  obtain ⟨hm, hr, hc⟩ := h
  simp only at hm
  exact ⟨hm, by rw [← hm]; exact hr, by rw [← hm]; exact hc⟩

/-- A ring of four periods with stale indices 9 and 7: open resets them, and after
four issuances, a restart completion and a steady completion they are below 4. -/
theorem indices_stay_in_range_witness :
    1 ≤ (playing 0 { ring4 with period_req_index := 9, period_cb_index := 7 }).dma_slot.period_index_max ∧
    ∃ s, (intel_alsa_ifx_open hw_accept intel_alsa_reset_ifx_status
        (some (playing 0 { ring4 with period_req_index := 9, period_cb_index := 7 }))).str_info =
        some s ∧
      (slot_run sample_bits s
        [SlotStep.flags 2, SlotStep.transfer_data hw_accept { ssp_handle := 7, stream_info := 2 },
          SlotStep.flags 2, SlotStep.transfer_data hw_accept { ssp_handle := 7, stream_info := 2 },
          SlotStep.flags 2, SlotStep.transfer_data hw_accept { ssp_handle := 7, stream_info := 2 },
          SlotStep.flags 2, SlotStep.transfer_data hw_accept { ssp_handle := 7, stream_info := 2 },
          SlotStep.flags 22, SlotStep.playback_complete hw_accept { ssp_handle := 7, stream_info := 2 },
          SlotStep.capture_complete hw_refuse { ssp_handle := 7, stream_info := 2 }]
        ).dma_slot.period_index_max = 4 ∧
      (slot_run sample_bits s
        [SlotStep.flags 2, SlotStep.transfer_data hw_accept { ssp_handle := 7, stream_info := 2 },
          SlotStep.flags 2, SlotStep.transfer_data hw_accept { ssp_handle := 7, stream_info := 2 },
          SlotStep.flags 2, SlotStep.transfer_data hw_accept { ssp_handle := 7, stream_info := 2 },
          SlotStep.flags 2, SlotStep.transfer_data hw_accept { ssp_handle := 7, stream_info := 2 },
          SlotStep.flags 22, SlotStep.playback_complete hw_accept { ssp_handle := 7, stream_info := 2 },
          SlotStep.capture_complete hw_refuse { ssp_handle := 7, stream_info := 2 }]
        ).dma_slot.period_req_index < 4 ∧
      (slot_run sample_bits s
        [SlotStep.flags 2, SlotStep.transfer_data hw_accept { ssp_handle := 7, stream_info := 2 },
          SlotStep.flags 2, SlotStep.transfer_data hw_accept { ssp_handle := 7, stream_info := 2 },
          SlotStep.flags 2, SlotStep.transfer_data hw_accept { ssp_handle := 7, stream_info := 2 },
          SlotStep.flags 2, SlotStep.transfer_data hw_accept { ssp_handle := 7, stream_info := 2 },
          SlotStep.flags 22, SlotStep.playback_complete hw_accept { ssp_handle := 7, stream_info := 2 },
          SlotStep.capture_complete hw_refuse { ssp_handle := 7, stream_info := 2 }]
        ).dma_slot.period_cb_index < 4 :=
  ⟨by decide, indices_stay_in_range sample_bits hw_accept intel_alsa_reset_ifx_status
    (playing 0 { ring4 with period_req_index := 9, period_cb_index := 7 }) _ (by decide)⟩

/-! ## Start followed by completions -/

theorem playback_complete_steady_accepted (b : ssp_stream_bits) (hw : Hw)
    (st : intel_alsa_stream_status) (s : intel_alsa_ifx_stream_info) (hb : b.distinct)
    (hh : st.ssp_handle ≠ 0) (ha : hw.accepts_requests)
    (hr : test_bit b.INTEL_ALSA_SSP_STREAM_RUNNING s.stream_status = true)
    (hd : test_bit b.INTEL_ALSA_SSP_STREAM_DROPPED s.stream_status = false)
    (hs : test_bit b.INTEL_ALSA_SSP_STREAM_STARTED s.stream_status = true)
    (hi : indices_in_range s) :
    ∃ s1, (intel_alsa_ifx_dma_playback_complete b hw st (some s)).str_info = some s1 ∧
      s1.substream = s.substream ∧
      (test_bit b.INTEL_ALSA_SSP_STREAM_RUNNING s1.stream_status = true ∧ test_bit b.INTEL_ALSA_SSP_STREAM_DROPPED s1.stream_status = false ∧
        test_bit b.INTEL_ALSA_SSP_STREAM_STARTED s1.stream_status = true) ∧
      s1.dma_slot = { s.dma_slot with
        period_cb_index := (s.dma_slot.period_cb_index + 1) % s.dma_slot.period_index_max,
        period_req_index :=
          (s.dma_slot.period_req_index + 1) % s.dma_slot.period_index_max } := by
  obtain ⟨hsr, hsd, hrd⟩ := id hb
  obtain ⟨hreq, hcb⟩ := hi
  rw [playback_complete_decision b hw st s hb hr]
  simp only [hd, hs, Bool.false_eq_true, if_false, if_true,
    intel_alsa_ifx_dma_playback_complete_tail, wrap_slot_eq_mod s.dma_slot hcb]
  rw [playback_req_accepted b hw st _ hh (ha.1 _ _ _) (by simp [test_bit_clear_bit])]
  refine ⟨_, rfl, rfl, ⟨?_, ?_, ?_⟩, ?_⟩
  · simp [test_bit_set_bit]
  · simp [test_bit_set_bit, test_bit_clear_bit, hd, hrd]
  · simp [test_bit_set_bit, test_bit_clear_bit, hs, Ne.symm hsr]
  · simp only
    rw [wrap_req_eq_mod s.dma_slot.period_req_index s.dma_slot.period_index_max hreq]

theorem capture_complete_steady_accepted (b : ssp_stream_bits) (hw : Hw)
    (st : intel_alsa_stream_status) (s : intel_alsa_ifx_stream_info) (hb : b.distinct)
    (hh : st.ssp_handle ≠ 0) (ha : hw.accepts_requests)
    (hr : test_bit b.INTEL_ALSA_SSP_STREAM_RUNNING s.stream_status = true)
    (hd : test_bit b.INTEL_ALSA_SSP_STREAM_DROPPED s.stream_status = false)
    (hs : test_bit b.INTEL_ALSA_SSP_STREAM_STARTED s.stream_status = true)
    (hi : indices_in_range s) :
    ∃ s1, (intel_alsa_ifx_dma_capture_complete b hw st (some s)).str_info = some s1 ∧
      s1.substream = s.substream ∧
      (test_bit b.INTEL_ALSA_SSP_STREAM_RUNNING s1.stream_status = true ∧ test_bit b.INTEL_ALSA_SSP_STREAM_DROPPED s1.stream_status = false ∧
        test_bit b.INTEL_ALSA_SSP_STREAM_STARTED s1.stream_status = true) ∧
      s1.dma_slot = { s.dma_slot with
        period_cb_index := (s.dma_slot.period_cb_index + 1) % s.dma_slot.period_index_max,
        period_req_index :=
          (s.dma_slot.period_req_index + 1) % s.dma_slot.period_index_max } := by
  obtain ⟨hsr, hsd, hrd⟩ := id hb
  obtain ⟨hreq, hcb⟩ := hi
  rw [capture_complete_decision b hw st s hb hr]
  simp only [hd, hs, Bool.false_eq_true, if_false, if_true,
    intel_alsa_ifx_dma_capture_complete_tail, wrap_slot_eq_mod s.dma_slot hcb]
  rw [capture_req_accepted b hw st _ hh (ha.2 _ _ _) (by simp [test_bit_clear_bit])]
  refine ⟨_, rfl, rfl, ⟨?_, ?_, ?_⟩, ?_⟩
  · simp [test_bit_set_bit]
  · simp [test_bit_set_bit, test_bit_clear_bit, hd, hrd]
  · simp [test_bit_set_bit, test_bit_clear_bit, hs, Ne.symm hsr]
  · simp only
    rw [wrap_req_eq_mod s.dma_slot.period_req_index s.dma_slot.period_index_max hreq]

theorem completions_steady (b : ssp_stream_bits) (hw : Hw)
    (st : intel_alsa_stream_status) (s : intel_alsa_ifx_stream_info) (hb : b.distinct)
    (hh : st.ssp_handle ≠ 0) (ha : hw.accepts_requests)
    (hr : test_bit b.INTEL_ALSA_SSP_STREAM_RUNNING s.stream_status = true)
    (hd : test_bit b.INTEL_ALSA_SSP_STREAM_DROPPED s.stream_status = false)
    (hs : test_bit b.INTEL_ALSA_SSP_STREAM_STARTED s.stream_status = true)
    (hi : indices_in_range s) (n : Nat) :
    (test_bit b.INTEL_ALSA_SSP_STREAM_RUNNING (completions b hw st n s).stream_status = true ∧
      test_bit b.INTEL_ALSA_SSP_STREAM_DROPPED (completions b hw st n s).stream_status = false ∧
      test_bit b.INTEL_ALSA_SSP_STREAM_STARTED (completions b hw st n s).stream_status = true) ∧
    (completions b hw st n s).dma_slot = { s.dma_slot with
      period_cb_index := (s.dma_slot.period_cb_index + n) % s.dma_slot.period_index_max,
      period_req_index :=
        (s.dma_slot.period_req_index + n) % s.dma_slot.period_index_max } := by
  obtain ⟨hreq, hcb⟩ := id hi
  induction n with
  | zero =>
    refine ⟨⟨hr, hd, hs⟩, ?_⟩
    simp only [completions, Nat.add_zero, Nat.mod_eq_of_lt hreq, Nat.mod_eq_of_lt hcb]
  | succ n ih =>
    obtain ⟨⟨hr1, hd1, hs1⟩, hslot⟩ := ih
    have hpos : 0 < s.dma_slot.period_index_max := by omega
    have hi1 : indices_in_range (completions b hw st n s) := by
      simp only [indices_in_range, hslot]
      exact ⟨Nat.mod_lt _ hpos, Nat.mod_lt _ hpos⟩
    have hstep : ∃ s1, (intel_alsa_ifx_dma_complete b hw st
          (completions b hw st n s)).str_info = some s1 ∧
        s1.substream = (completions b hw st n s).substream ∧
        (test_bit b.INTEL_ALSA_SSP_STREAM_RUNNING s1.stream_status = true ∧ test_bit b.INTEL_ALSA_SSP_STREAM_DROPPED s1.stream_status = false ∧
          test_bit b.INTEL_ALSA_SSP_STREAM_STARTED s1.stream_status = true) ∧
        s1.dma_slot = { (completions b hw st n s).dma_slot with
          period_cb_index := ((completions b hw st n s).dma_slot.period_cb_index + 1) %
            (completions b hw st n s).dma_slot.period_index_max,
          period_req_index := ((completions b hw st n s).dma_slot.period_req_index + 1) %
            (completions b hw st n s).dma_slot.period_index_max } := by
      unfold intel_alsa_ifx_dma_complete
      split_ifs
      · exact playback_complete_steady_accepted b hw st _ hb hh ha hr1 hd1 hs1 hi1
      · exact capture_complete_steady_accepted b hw st _ hb hh ha hr1 hd1 hs1 hi1
    obtain ⟨s1, hs1eq, -, hflags, hslot1⟩ := hstep
    simp only [completions, hs1eq, Option.getD_some]
    refine ⟨hflags, ?_⟩
    rw [hslot1, hslot]
    simp only [Nat.mod_add_mod, Nat.add_assoc]

/-- C16, as stated, fails. In a ring of 4 periods, after Start and no completion
`period_req_index` is 1, not 0; after Start and 5 completions `period_cb_index`
is 1 and `period_req_index` is 2, not 5 mod 4. -/
theorem request_index_runs_one_ahead :
    (start_then_completions sample_bits hw_accept { ssp_handle := 7, stream_info := 2 } 0
      (playing 2 ring4)).dma_slot = { ring4 with period_req_index := 1, period_cb_index := 0 } ∧
    (start_then_completions sample_bits hw_accept { ssp_handle := 7, stream_info := 2 } 5
      (playing 2 ring4)).dma_slot = { ring4 with period_req_index := 2, period_cb_index := 1 } ∧
    0 % 4 ≠ 1 ∧ 5 % 4 ≠ 2 := by
  decide

/-- C16, amended: for every `period_index_max >= 1` and every N, from a slot with
both indices 0, RUNNING and DROPPED clear and STARTED set, with the channel handle
present, a direction of playback or capture and a driver that accepts every
request, the first issuance followed by N completions yields `period_cb_index ==
N mod period_index_max` and `period_req_index == (N + 1) mod period_index_max`,
with RUNNING set: one request is outstanding ahead. -/
theorem start_then_completions_indices (b : ssp_stream_bits) (hw : Hw)
    (st : intel_alsa_stream_status) (s : intel_alsa_ifx_stream_info) (n : Nat)
    (hb : b.distinct) (hh : st.ssp_handle ≠ 0) (ha : hw.accepts_requests)
    (hdir : valid_direction s)
    (hmax : 1 ≤ s.dma_slot.period_index_max)
    (hreq : s.dma_slot.period_req_index = 0) (hcb : s.dma_slot.period_cb_index = 0)
    (hs : test_bit b.INTEL_ALSA_SSP_STREAM_STARTED s.stream_status = true)
    (hd : test_bit b.INTEL_ALSA_SSP_STREAM_DROPPED s.stream_status = false)
    (hr : test_bit b.INTEL_ALSA_SSP_STREAM_RUNNING s.stream_status = false) :
    (start_then_completions b hw st n s).dma_slot.period_cb_index =
      n % s.dma_slot.period_index_max ∧
    (start_then_completions b hw st n s).dma_slot.period_req_index =
      (n + 1) % s.dma_slot.period_index_max ∧
    (start_then_completions b hw st n s).dma_slot.period_index_max =
      s.dma_slot.period_index_max ∧
    test_bit b.INTEL_ALSA_SSP_STREAM_RUNNING (start_then_completions b hw st n s).stream_status = true := by
  obtain ⟨hsr, hsd, hrd⟩ := id hb
  have hstart : ∃ s1, (intel_alsa_ifx_transfer_data b hw st s).str_info = some s1 ∧
      s1.stream_status = set_bit b.INTEL_ALSA_SSP_STREAM_RUNNING s.stream_status ∧
      s1.dma_slot = { s.dma_slot with period_req_index := 1 % s.dma_slot.period_index_max } := by
    have hw0 := wrap_req_eq_mod s.dma_slot.period_req_index s.dma_slot.period_index_max
      (by omega)
    rw [hreq] at hw0
    unfold intel_alsa_ifx_transfer_data
    rcases hdir with hp | hc
    · rw [if_pos hp, playback_req_accepted b hw st s hh (ha.1 _ _ _) hr]
      refine ⟨_, rfl, rfl, ?_⟩
      simp only [hreq, hw0]
    · have hnp : ¬ s.substream.stream = SNDRV_PCM_STREAM_PLAYBACK := by
        rw [hc]; decide
      rw [if_neg hnp, if_pos hc, capture_req_accepted b hw st s hh (ha.2 _ _ _) hr]
      refine ⟨_, rfl, rfl, ?_⟩
      simp only [hreq, hw0]
  obtain ⟨s1, hs1, hst1, hslot1⟩ := hstart
  have hpos : 0 < s.dma_slot.period_index_max := by omega
  have h := completions_steady b hw st s1 hb hh ha
    (by rw [hst1]; simp [test_bit_set_bit])
    (by rw [hst1]; simp [test_bit_set_bit, hd, hrd])
    (by rw [hst1]; simp [test_bit_set_bit, hs])
    (by simp only [indices_in_range, hslot1, hcb]; exact ⟨Nat.mod_lt _ hpos, hpos⟩) n
  simp only [start_then_completions, hs1, Option.getD_some]
  obtain ⟨⟨hrn, -, -⟩, hslotn⟩ := h
  rw [hslotn, hslot1]
  simp only [hcb, Nat.zero_add, Nat.mod_add_mod]
  exact ⟨trivial, by rw [Nat.add_comm], trivial, hrn⟩

/-- BT playback in a ring of 4 periods, Start and 6 completions: indices 6 mod 4
and 7 mod 4. -/
theorem start_then_completions_indices_witness :
    (sample_bits.distinct ∧ (7 : Nat) ≠ 0 ∧ hw_accept.accepts_requests ∧
      valid_direction (playing 2 ring4) ∧ test_bit 1 2 = true ∧ test_bit 4 2 = false ∧
      test_bit 2 2 = false) ∧
    (start_then_completions sample_bits hw_accept { ssp_handle := 7, stream_info := 2 } 6
      (playing 2 ring4)).dma_slot.period_cb_index = 6 % 4 ∧
    (start_then_completions sample_bits hw_accept { ssp_handle := 7, stream_info := 2 } 6
      (playing 2 ring4)).dma_slot.period_req_index = (6 + 1) % 4 :=
  have ha : hw_accept.accepts_requests := ⟨fun _ _ _ => rfl, fun _ _ _ => rfl⟩
  have h := start_then_completions_indices sample_bits hw_accept
    { ssp_handle := 7, stream_info := 2 } (playing 2 ring4) 6 (by decide) (by decide) ha
    (Or.inl rfl) (by decide) rfl rfl (by decide) (by decide) (by decide)
  ⟨⟨by decide, by decide, ha, Or.inl rfl, by decide, by decide, by decide⟩, h.1, h.2.1⟩

/-! ## Errors and their propagation -/

/-- C17: the code at the failing inputs. In the reset registry
`intel_alsa_ifx_close` returns `-EINVAL` for BT capture, and
`intel_alsa_ifx_control` with the CLOSE command returns 0 there, while with the
OPEN command it returns the `-EBUSY` of the open it dispatched. With a driver that
rejects the request, the re-arm of a steady-state completion returns `-EINVAL` and
the completion handler returns 0. -/
theorem control_close_and_rearm_errors_dropped :
    (intel_alsa_ifx_close intel_alsa_reset_ifx_status (some bt_capture)).ret = -EINVAL ∧
    (intel_alsa_ifx_control hw_accept intel_alsa_reset_ifx_status
      ssp_ctrl.INTEL_ALSA_SSP_CTRL_SND_CLOSE (some bt_capture)).ret = 0 ∧
    (intel_alsa_ifx_control hw_accept { ssp_handle := 7, stream_info := 1 }
      ssp_ctrl.INTEL_ALSA_SSP_CTRL_SND_OPEN (some fm_capture)).ret = -EBUSY ∧
    (intel_alsa_ifx_dma_playback_req sample_bits hw_refuse { ssp_handle := 7, stream_info := 2 }
      (playing 2 { ring4 with period_cb_index := 1 })).ret = -EINVAL ∧
    (intel_alsa_ifx_dma_playback_complete sample_bits hw_refuse
      { ssp_handle := 7, stream_info := 2 } (some (playing 6 ring4))) =
      { ret := 0, status := { ssp_handle := 7, stream_info := 2 },
        str_info := some (playing 2 { ring4 with period_cb_index := 1 }),
        trace := [Event.intel_mid_i2s_wr_req 7 4096 256
            (playing 2 { ring4 with period_cb_index := 1 }),
          Event.snd_pcm_period_elapsed bt_playback.substream] } := by
  decide

/-- C18: when `intel_alsa_ifx_open` passes the arbitration (empty open-set, or
paired sibling open), installs the callbacks if it is the sole opener, and the
allocation command of the stream's direction fails, it returns `-EBUSY`; the
stream's bit is set in `stream_info`, `ssp_handle` is the handle just acquired
(sole opener) or the one already there (sibling), and `intel_mid_i2s_close` is not
called. -/
theorem open_alloc_failure_rolls_nothing_back (hw : Hw) (st : intel_alsa_stream_status)
    (s : intel_alsa_ifx_stream_info)
    (harb : st.stream_info = 0 ∨ (s.stream_index = 0 ∧ test_bit 1 st.stream_info = true) ∨
      (s.stream_index = 1 ∧ test_bit 0 st.stream_info = true))
    (hcb : st.stream_info = 0 →
      hw.intel_mid_i2s_set_wr_cb hw.intel_mid_i2s_open = 0 ∧
      hw.intel_mid_i2s_set_rd_cb hw.intel_mid_i2s_open = 0)
    (hfail : (s.substream.stream = SNDRV_PCM_STREAM_PLAYBACK ∧
        hw.intel_mid_i2s_command
          (if st.stream_info = 0 then hw.intel_mid_i2s_open else st.ssp_handle)
          ssp_cmd.SSP_CMD_ALLOC_TX ≠ 0) ∨
      (s.substream.stream = SNDRV_PCM_STREAM_CAPTURE ∧
        hw.intel_mid_i2s_command
          (if st.stream_info = 0 then hw.intel_mid_i2s_open else st.ssp_handle)
          ssp_cmd.SSP_CMD_ALLOC_RX ≠ 0)) :
    (intel_alsa_ifx_open hw st (some s)).ret = -EBUSY ∧
    (intel_alsa_ifx_open hw st (some s)).status.stream_info =
      set_bit s.stream_index st.stream_info ∧
    test_bit s.stream_index (intel_alsa_ifx_open hw st (some s)).status.stream_info = true ∧
    (intel_alsa_ifx_open hw st (some s)).status.ssp_handle =
      (if st.stream_info = 0 then hw.intel_mid_i2s_open else st.ssp_handle) ∧
    releases (intel_alsa_ifx_open hw st (some s)).trace = 0 := by
  have hcap : ¬ SNDRV_PCM_STREAM_CAPTURE = SNDRV_PCM_STREAM_PLAYBACK := by decide
  by_cases h0 : st.stream_info = 0
  · obtain ⟨hw1, hw2⟩ := hcb h0
    simp only [h0, if_true] at hfail
    rcases hfail with ⟨hp, hf⟩ | ⟨hc, hf⟩
    · simp [intel_alsa_ifx_open, intel_alsa_ifx_open_acquire, intel_alsa_ifx_open_alloc,
        h0, hw1, hw2, hp, hf, releases, test_bit_set_bit]
    · simp [intel_alsa_ifx_open, intel_alsa_ifx_open_acquire, intel_alsa_ifx_open_alloc,
        h0, hw1, hw2, hc, hcap, hf, releases, test_bit_set_bit]
  · have hsib := harb.resolve_left h0
    simp only [h0, if_false] at hfail
    rcases hfail with ⟨hp, hf⟩ | ⟨hc, hf⟩
    · simp [intel_alsa_ifx_open, intel_alsa_ifx_open_acquire, intel_alsa_ifx_open_alloc,
        h0, hsib, hp, hf, releases, test_bit_set_bit]
    · simp [intel_alsa_ifx_open, intel_alsa_ifx_open_acquire, intel_alsa_ifx_open_alloc,
        h0, hsib, hc, hcap, hf, releases, test_bit_set_bit]

/-- BT capture as sole opener with a driver that has no receive channel left: the
open returns `-EBUSY`, bit 0 is set and handle 7 is kept. -/
theorem open_alloc_failure_rolls_nothing_back_witness :
    intel_alsa_ifx_open hw_no_dma intel_alsa_reset_ifx_status (some bt_capture) =
      { ret := -EBUSY, status := { ssp_handle := 7, stream_info := 1 },
        str_info := some bt_capture,
        trace := [Event.spin_lock, Event.spin_unlock, Event.intel_mid_i2s_open,
          Event.intel_mid_i2s_command 7 ssp_cmd.SSP_CMD_SET_HW_CONFIG (some 0),
          Event.intel_mid_i2s_set_wr_cb 7, Event.intel_mid_i2s_set_rd_cb 7,
          Event.intel_mid_i2s_command 7 ssp_cmd.SSP_CMD_ALLOC_RX none] } ∧
    (intel_alsa_ifx_open hw_no_dma intel_alsa_reset_ifx_status (some bt_capture)).ret =
      -EBUSY :=
  ⟨by decide, (open_alloc_failure_rolls_nothing_back hw_no_dma intel_alsa_reset_ifx_status
    bt_capture (Or.inl rfl) (fun _ => ⟨rfl, rfl⟩) (Or.inr ⟨rfl, by decide⟩)).1⟩

/-- C19, as stated, fails. With a driver that gives no handle and answers 0 to the
calls made on the `NULL` handle, the sole opener's open returns 0; bit 0 is set
and the handle is `NULL`. -/
theorem open_succeeds_without_channel :
    hw_no_channel.intel_mid_i2s_open = 0 ∧
    intel_alsa_ifx_open hw_no_channel intel_alsa_reset_ifx_status (some bt_capture) =
      { ret := 0, status := { ssp_handle := 0, stream_info := 1 },
        str_info := some bt_capture,
        trace := [Event.spin_lock, Event.spin_unlock, Event.intel_mid_i2s_open,
          Event.intel_mid_i2s_command 0 ssp_cmd.SSP_CMD_SET_HW_CONFIG (some 0),
          Event.intel_mid_i2s_set_wr_cb 0, Event.intel_mid_i2s_set_rd_cb 0,
          Event.intel_mid_i2s_command 0 ssp_cmd.SSP_CMD_ALLOC_RX none] } := by
  decide

/-- C19, amended: in the sole-opener path, when `intel_mid_i2s_open` yields `NULL`
the registry is left with the stream's bit set and `ssp_handle` `NULL`, and the
open fails exactly when a later step fails: installing a callback on the `NULL`
handle (then it returns `-EINVAL`), the allocation command of the stream's
direction, or a direction that is neither playback nor capture. -/
theorem open_without_channel (hw : Hw) (st : intel_alsa_stream_status)
    (s : intel_alsa_ifx_stream_info) (h0 : st.stream_info = 0)
    (hnull : hw.intel_mid_i2s_open = 0) :
    (intel_alsa_ifx_open hw st (some s)).status =
      { ssp_handle := 0, stream_info := set_bit s.stream_index 0 } ∧
    test_bit s.stream_index (intel_alsa_ifx_open hw st (some s)).status.stream_info = true ∧
    ((intel_alsa_ifx_open hw st (some s)).ret ≠ 0 ↔
      (hw.intel_mid_i2s_set_wr_cb 0 ≠ 0 ∨ hw.intel_mid_i2s_set_rd_cb 0 ≠ 0 ∨
        (s.substream.stream = SNDRV_PCM_STREAM_PLAYBACK ∧
          hw.intel_mid_i2s_command 0 ssp_cmd.SSP_CMD_ALLOC_TX ≠ 0) ∨
        (s.substream.stream = SNDRV_PCM_STREAM_CAPTURE ∧
          hw.intel_mid_i2s_command 0 ssp_cmd.SSP_CMD_ALLOC_RX ≠ 0) ∨
        ¬ valid_direction s)) ∧
    (hw.intel_mid_i2s_set_wr_cb 0 ≠ 0 ∨ hw.intel_mid_i2s_set_rd_cb 0 ≠ 0 →
      (intel_alsa_ifx_open hw st (some s)).ret = -EINVAL) := by
  have hcap : ¬ SNDRV_PCM_STREAM_CAPTURE = SNDRV_PCM_STREAM_PLAYBACK := by decide
  have hpc : ¬ SNDRV_PCM_STREAM_PLAYBACK = SNDRV_PCM_STREAM_CAPTURE := by decide
  have hst : (intel_alsa_ifx_open hw st (some s)).status =
      { ssp_handle := 0, stream_info := set_bit s.stream_index 0 } := by
    simp [intel_alsa_ifx_open, h0, open_acquire_status, hnull]
  refine ⟨hst, by rw [hst]; simp [test_bit_set_bit], ?_, ?_⟩
  · simp only [intel_alsa_ifx_open, h0, if_true, intel_alsa_ifx_open_acquire, hnull,
      intel_alsa_ifx_open_alloc, valid_direction]
    by_cases hw1 : hw.intel_mid_i2s_set_wr_cb 0 = 0
    · by_cases hw2 : hw.intel_mid_i2s_set_rd_cb 0 = 0
      · by_cases hp : s.substream.stream = SNDRV_PCM_STREAM_PLAYBACK
        · by_cases hc1 : hw.intel_mid_i2s_command 0 ssp_cmd.SSP_CMD_ALLOC_TX = 0 <;>
            simp [hw1, hw2, hp, hc1, hcap, hpc, EBUSY]
        · by_cases hc : s.substream.stream = SNDRV_PCM_STREAM_CAPTURE
          · by_cases hc1 : hw.intel_mid_i2s_command 0 ssp_cmd.SSP_CMD_ALLOC_RX = 0 <;>
              simp [hw1, hw2, hc, hc1, hcap, EBUSY]
          · simp [hw1, hw2, hp, hc, EINVAL]
      · simp [hw1, hw2, EINVAL]
    · simp [hw1, EINVAL]
  · intro hor
    simp only [intel_alsa_ifx_open, h0, if_true, intel_alsa_ifx_open_acquire, hnull]
    by_cases hw1 : hw.intel_mid_i2s_set_wr_cb 0 = 0
    · have hw2 := hor.resolve_left (not_not.mpr hw1)
      simp [hw1, hw2]
    · simp [hw1]

/-- A driver that gives no handle and refuses the `NULL` handle: the open fails
with `-EINVAL` and bit 0 stays set. -/
theorem open_without_channel_witness :
    (intel_alsa_reset_ifx_status.stream_info = 0 ∧ hw_refuse.intel_mid_i2s_open = 0) ∧
    (intel_alsa_ifx_open hw_refuse intel_alsa_reset_ifx_status (some bt_capture)).status =
      { ssp_handle := 0, stream_info := set_bit bt_capture.stream_index 0 } ∧
    (intel_alsa_ifx_open hw_refuse intel_alsa_reset_ifx_status (some bt_capture)).ret =
      -EINVAL :=
  have h := open_without_channel hw_refuse intel_alsa_reset_ifx_status bt_capture rfl rfl
  ⟨⟨rfl, rfl⟩, h.1, h.2.2.2 (Or.inl (by decide))⟩

/-! ## The registry lock -/

theorem open_alloc_lock (hw : Hw) (st : intel_alsa_stream_status)
    (s : intel_alsa_ifx_stream_info) (tr : List Event)
    (h : replay_lock tr = { held := false, calls_under_lock := 0 }) :
    replay_lock (intel_alsa_ifx_open_alloc hw st s tr).trace =
      { held := false, calls_under_lock := 0 } ∧
    tr <+: (intel_alsa_ifx_open_alloc hw st s tr).trace := by
  unfold replay_lock at h
  unfold intel_alsa_ifx_open_alloc
  split_ifs <;>
    simp [replay_lock, List.foldl_append, h, LockState.step]

theorem open_acquire_lock (hw : Hw) (st : intel_alsa_stream_status)
    (s : intel_alsa_ifx_stream_info) (d : Nat) (open_ifx : Bool) (tr : List Event)
    (h : replay_lock tr = { held := false, calls_under_lock := 0 }) :
    replay_lock (intel_alsa_ifx_open_acquire hw st s d open_ifx tr).trace =
      { held := false, calls_under_lock := 0 } ∧
    tr <+: (intel_alsa_ifx_open_acquire hw st s d open_ifx tr).trace := by
  have hstep : ∀ tr2 : List Event,
      replay_lock tr2 = { held := false, calls_under_lock := 0 } →
      ∀ e : Event, e ≠ Event.spin_lock →
        replay_lock (tr2 ++ [e]) = { held := false, calls_under_lock := 0 } := by
    intro tr2 h2 e he
    unfold replay_lock at h2 ⊢
    rw [List.foldl_append, h2]
    cases e <;> simp [LockState.step] at he ⊢
  unfold intel_alsa_ifx_open_acquire
  dsimp only
  have h3 : replay_lock (tr ++ [Event.intel_mid_i2s_open,
      Event.intel_mid_i2s_command hw.intel_mid_i2s_open ssp_cmd.SSP_CMD_SET_HW_CONFIG (some d),
      Event.intel_mid_i2s_set_wr_cb hw.intel_mid_i2s_open]) =
      { held := false, calls_under_lock := 0 } := by
    have e1 := hstep tr h Event.intel_mid_i2s_open (by simp)
    have e2 := hstep _ e1 (Event.intel_mid_i2s_command hw.intel_mid_i2s_open
      ssp_cmd.SSP_CMD_SET_HW_CONFIG (some d)) (by simp)
    have e3 := hstep _ e2 (Event.intel_mid_i2s_set_wr_cb hw.intel_mid_i2s_open) (by simp)
    simpa using e3
  have h4 := hstep _ h3 (Event.intel_mid_i2s_set_rd_cb hw.intel_mid_i2s_open) (by simp)
  split_ifs
  · exact ⟨h3, List.prefix_append _ _⟩
  · exact ⟨h4, by rw [List.append_assoc]; exact List.prefix_append _ _⟩
  · obtain ⟨ha, hb⟩ := open_alloc_lock hw { st with ssp_handle := hw.intel_mid_i2s_open } s _ h4
    refine ⟨ha, List.IsPrefix.trans ?_ hb⟩
    rw [List.append_assoc]
    exact List.prefix_append _ _
  · exact open_alloc_lock hw st s tr h

/-- C20: replaying the trace of any call of `intel_alsa_ifx_open` or
`intel_alsa_ifx_close` from a lock that is not held, the lock is not held at the
end and no call was made while it was held; the lock is taken and released at
the start of every open of a stream and of every close of a stream with the
channel handle present. -/
theorem lock_released_and_no_call_under_lock (hw : Hw) (st : intel_alsa_stream_status)
    (param : Option intel_alsa_ifx_stream_info) :
    replay_lock (intel_alsa_ifx_open hw st param).trace =
      { held := false, calls_under_lock := 0 } ∧
    replay_lock (intel_alsa_ifx_close st param).trace =
      { held := false, calls_under_lock := 0 } ∧
    (∀ s, [Event.spin_lock, Event.spin_unlock] <+: (intel_alsa_ifx_open hw st (some s)).trace) ∧
    (∀ s, st.ssp_handle ≠ 0 →
      [Event.spin_lock, Event.spin_unlock] <+: (intel_alsa_ifx_close st (some s)).trace) := by
  have hl : replay_lock [Event.spin_lock, Event.spin_unlock] =
      { held := false, calls_under_lock := 0 } := rfl
  have hopen : ∀ s, replay_lock (intel_alsa_ifx_open hw st (some s)).trace =
        { held := false, calls_under_lock := 0 } ∧
      [Event.spin_lock, Event.spin_unlock] <+: (intel_alsa_ifx_open hw st (some s)).trace := by
    intro s
    unfold intel_alsa_ifx_open
    dsimp only
    split_ifs
    · exact open_acquire_lock hw _ _ _ true _ hl
    · exact open_acquire_lock hw _ _ _ false _ hl
    · exact ⟨hl, List.prefix_refl _⟩
  refine ⟨?_, ?_, fun s => (hopen s).2, ?_⟩
  · cases param with
    | none => rfl
    | some s => exact (hopen s).1
  · cases param with
    | none => rfl
    | some s =>
      simp only [intel_alsa_ifx_close]
      split_ifs <;> simp [replay_lock, LockState.step]
  · intro s hh
    simp only [intel_alsa_ifx_close, if_neg hh]
    split_ifs <;> simp [List.prefix_iff_eq_append]

/-! ## Playback against capture -/

theorem capture_req_eq_playback_req (b : ssp_stream_bits) (hw : Hw)
    (st : intel_alsa_stream_status) (s : intel_alsa_ifx_stream_info) :
    intel_alsa_ifx_dma_capture_req b hw st s =
      { intel_alsa_ifx_dma_playback_req b hw.read_as_write st s with
        trace := (intel_alsa_ifx_dma_playback_req b hw.read_as_write st s).trace.map to_read } := by
  unfold intel_alsa_ifx_dma_capture_req intel_alsa_ifx_dma_playback_req
  simp only [Hw.read_as_write]
  split_ifs <;> simp [to_read]

theorem capture_tail_eq_playback_tail (b : ssp_stream_bits) (hw : Hw)
    (st : intel_alsa_stream_status) (s : intel_alsa_ifx_stream_info)
    (call_back reset_index : Bool) :
    intel_alsa_ifx_dma_capture_complete_tail b hw st s call_back reset_index =
      { intel_alsa_ifx_dma_playback_complete_tail b hw.read_as_write st s call_back
          reset_index with
        trace := (intel_alsa_ifx_dma_playback_complete_tail b hw.read_as_write st s call_back
          reset_index).trace.map to_read } := by
  unfold intel_alsa_ifx_dma_capture_complete_tail intel_alsa_ifx_dma_playback_complete_tail
  cases call_back with
  | false => simp
  | true =>
    simp only [if_true, capture_req_eq_playback_req]
    simp [to_read]

/-- C21: each capture function is the playback function of the same name run with a
driver that answers the write request as the given driver answers the read
request, with every write request of the trace turned into the read request of
the same arguments: same returned value, same registry, same final stream
structure (flags and indices), same notification. With a driver that answers
write and read requests alike the two handlers, and the two request functions,
differ in nothing but the kind of the request. -/
theorem capture_is_playback_with_read_requests (b : ssp_stream_bits) (hw : Hw)
    (st : intel_alsa_stream_status) (s : intel_alsa_ifx_stream_info)
    (param : Option intel_alsa_ifx_stream_info) :
    intel_alsa_ifx_dma_capture_req b hw st s =
      { intel_alsa_ifx_dma_playback_req b hw.read_as_write st s with
        trace := (intel_alsa_ifx_dma_playback_req b hw.read_as_write st s).trace.map to_read } ∧
    intel_alsa_ifx_dma_capture_complete b hw st param =
      { intel_alsa_ifx_dma_playback_complete b hw.read_as_write st param with
        trace := (intel_alsa_ifx_dma_playback_complete b hw.read_as_write st param).trace.map
          to_read } ∧
    (hw.intel_mid_i2s_wr_req = hw.intel_mid_i2s_rd_req →
      (intel_alsa_ifx_dma_capture_complete b hw st param).ret =
        (intel_alsa_ifx_dma_playback_complete b hw st param).ret ∧
      (intel_alsa_ifx_dma_capture_complete b hw st param).status =
        (intel_alsa_ifx_dma_playback_complete b hw st param).status ∧
      (intel_alsa_ifx_dma_capture_complete b hw st param).str_info =
        (intel_alsa_ifx_dma_playback_complete b hw st param).str_info ∧
      (intel_alsa_ifx_dma_capture_complete b hw st param).trace =
        (intel_alsa_ifx_dma_playback_complete b hw st param).trace.map to_read ∧
      notifications (intel_alsa_ifx_dma_capture_complete b hw st param).trace =
        notifications (intel_alsa_ifx_dma_playback_complete b hw st param).trace ∧
      (intel_alsa_ifx_dma_capture_req b hw st s).ret =
        (intel_alsa_ifx_dma_playback_req b hw st s).ret ∧
      (intel_alsa_ifx_dma_capture_req b hw st s).str_info =
        (intel_alsa_ifx_dma_playback_req b hw st s).str_info ∧
      (intel_alsa_ifx_dma_capture_req b hw st s).trace =
        (intel_alsa_ifx_dma_playback_req b hw st s).trace.map to_read) := by
  have hc : intel_alsa_ifx_dma_capture_complete b hw st param =
      { intel_alsa_ifx_dma_playback_complete b hw.read_as_write st param with
        trace := (intel_alsa_ifx_dma_playback_complete b hw.read_as_write st param).trace.map
          to_read } := by
    cases param with
    | none => rfl
    | some s1 =>
      unfold intel_alsa_ifx_dma_capture_complete intel_alsa_ifx_dma_playback_complete
      dsimp only
      split_ifs <;> first | rfl | exact capture_tail_eq_playback_tail _ _ _ _ _ _
  refine ⟨capture_req_eq_playback_req b hw st s, hc, ?_⟩
  intro heq
  have hhw : hw.read_as_write = hw := by
    cases hw
    simp only [Hw.read_as_write] at heq ⊢
    simp [heq]
  have hn : ∀ tr : List Event, notifications (tr.map to_read) = notifications tr := by
    intro tr
    induction tr with
    | nil => rfl
    | cons e tr ih =>
      simp only [notifications, List.map_cons, List.countP_cons] at ih ⊢
      rw [ih]
      cases e <;> simp [to_read]
  rw [hc, capture_req_eq_playback_req b hw st s, hhw]
  exact ⟨rfl, rfl, rfl, rfl, hn _, rfl, rfl, rfl⟩


/-! ## Submitted slices -/

/-- C23: `intel_alsa_ifx_open` called with a stream leaves, on every return path,
that stream's structure with `period_req_index` and `period_cb_index` 0 and every
other field, the status flags included, as it was; on the unsupported
configuration path it returns `-EBUSY` with the registry unchanged and the indices
reset all the same. Called through a pointer into the memory of stream
structures it writes only at that pointer, so every other stream's slot is
unchanged, and with `NULL` it returns `-EINVAL` and changes nothing. -/
theorem open_resets_indices_on_every_path (hw : Hw) (st : intel_alsa_stream_status)
    (s : intel_alsa_ifx_stream_info) (mem : Nat → intel_alsa_ifx_stream_info) (a q : Nat) :
    (intel_alsa_ifx_open hw st (some s)).str_info =
      some { s with dma_slot :=
        { s.dma_slot with period_req_index := 0, period_cb_index := 0 } } ∧
    (st.stream_info ≠ 0 →
      ¬ ((s.stream_index = 0 ∧ test_bit 1 st.stream_info = true) ∨
        (s.stream_index = 1 ∧ test_bit 0 st.stream_info = true)) →
      intel_alsa_ifx_open hw st (some s) =
        { ret := -EBUSY, status := st,
          str_info := some { s with dma_slot :=
            { s.dma_slot with period_req_index := 0, period_cb_index := 0 } },
          trace := [Event.spin_lock, Event.spin_unlock] }) ∧
    intel_alsa_ifx_open hw st none =
      { ret := -EINVAL, status := st, str_info := none, trace := [] } ∧
    (intel_alsa_ifx_open_at hw st mem (some a)).2 a =
      { mem a with dma_slot :=
        { (mem a).dma_slot with period_req_index := 0, period_cb_index := 0 } } ∧
    (q ≠ a → (intel_alsa_ifx_open_at hw st mem (some a)).2 q = mem q) ∧
    intel_alsa_ifx_open_at hw st mem none =
      ({ ret := -EINVAL, status := st, str_info := none, trace := [] }, mem) := by
  refine ⟨open_str_info hw st s, ?_, rfl, ?_, ?_, rfl⟩
  · intro hne hns
    simp only [intel_alsa_ifx_open, if_neg hne, if_neg hns]
  · simp only [intel_alsa_ifx_open_at, if_true, open_str_info, Option.getD_some]
  · intro hq
    simp only [intel_alsa_ifx_open_at, if_neg hq]

/-- FM capture with stale indices 3 and 2, refused while BT capture is open: the
registry is unchanged and the indices are 0. -/
theorem open_resets_indices_on_every_path_witness :
    intel_alsa_ifx_open hw_accept { ssp_handle := 7, stream_info := 1 }
      (some { fm_capture with dma_slot :=
        { ring4 with period_req_index := 3, period_cb_index := 2 } }) =
      { ret := -EBUSY, status := { ssp_handle := 7, stream_info := 1 },
        str_info := some fm_capture,
        trace := [Event.spin_lock, Event.spin_unlock] } :=
  (open_resets_indices_on_every_path hw_accept { ssp_handle := 7, stream_info := 1 }
    { fm_capture with dma_slot := { ring4 with period_req_index := 3, period_cb_index := 2 } }
    (fun _ => fm_capture) 0 0).2.1 (by decide) (by decide)

end IntelAlsaIfx

namespace Vt6656

/-! ## The in-use flag of the interrupt pipe -/

theorem int_step_keeps_invariant (INTnsProcessData : vnt_private → vnt_private)
    (hproc : ∀ p, (INTnsProcessData p).int_buf.in_use = false)
    (ps ps1 : IntPipe) (c : IntStep) (hinv : in_use_invariant ps)
    (hstep : int_step INTnsProcessData ps c = some ps1) : in_use_invariant ps1 := by
  obtain ⟨hle, hiff⟩ := hinv
  cases c with
  | read submit =>
    simp only [int_step, Option.some.injEq] at hstep
    subst hstep
    by_cases hu : ps.priv.int_buf.in_use = true
    · simp only [in_use_invariant, PIPEnsInterruptRead, hu, if_true, accepted_urbs,
        List.count_nil, ite_self, Nat.add_zero]
      exact ⟨hle, by simpa [hu] using hiff⟩
    · have h0 : ps.outstanding = 0 := by
        by_contra hne
        exact hu (hiff.mpr (by omega))
      by_cases hs : submit = 0
      · simp [in_use_invariant, PIPEnsInterruptRead, hu, hs, accepted_urbs, h0]
      · simp [in_use_invariant, PIPEnsInterruptRead, hu, hs, accepted_urbs, h0]
  | complete urb_status submit =>
    simp only [int_step] at hstep
    split_ifs at hstep with h0
    simp only [Option.some.injEq] at hstep
    subst hstep
    have h1 : ps.outstanding = 1 := by omega
    by_cases hgone : urb_status = -ECONNRESET ∨ urb_status = -ENOENT ∨ urb_status = -ESHUTDOWN
    · simp [in_use_invariant, s_nsInterruptUsbIoCompleteRead, hgone, accepted_urbs, h1]
    · by_cases hok : urb_status = STATUS_SUCCESS
      · subst hok
        have hg : ¬ (STATUS_SUCCESS = -ECONNRESET ∨ STATUS_SUCCESS = -ENOENT ∨
            STATUS_SUCCESS = -ESHUTDOWN) := by decide
        by_cases hs : submit = 0 <;>
          simp [in_use_invariant, s_nsInterruptUsbIoCompleteRead, hg, hs, accepted_urbs,
            h1, hproc]
      · by_cases hs : submit = 0 <;>
          simp [in_use_invariant, s_nsInterruptUsbIoCompleteRead, hgone, hok, hs,
            accepted_urbs, h1]

theorem int_read_keeps_invariant (INTnsProcessData : vnt_private → vnt_private)
    (ps ps1 : IntPipe) (submit : Int) (hinv : in_use_invariant ps)
    (hstep : int_step INTnsProcessData ps (IntStep.read submit) = some ps1) :
    in_use_invariant ps1 := by
  obtain ⟨hle, hiff⟩ := hinv
  simp only [int_step, Option.some.injEq] at hstep
  subst hstep
  by_cases hu : ps.priv.int_buf.in_use = true
  · simp only [in_use_invariant, PIPEnsInterruptRead, hu, if_true, accepted_urbs,
      List.count_nil, ite_self, Nat.add_zero]
    exact ⟨hle, by simpa [hu] using hiff⟩
  · have h0 : ps.outstanding = 0 := by
      by_contra hne
      exact hu (hiff.mpr (by omega))
    by_cases hs : submit = 0
    · simp [in_use_invariant, PIPEnsInterruptRead, hu, hs, accepted_urbs, h0]
    · simp [in_use_invariant, PIPEnsInterruptRead, hu, hs, accepted_urbs, h0]

theorem int_complete_invariant_iff (INTnsProcessData : vnt_private → vnt_private)
    (ps ps1 : IntPipe) (urb_status submit : Int) (hinv : in_use_invariant ps)
    (hstep : int_step INTnsProcessData ps (IntStep.complete urb_status submit) = some ps1) :
    in_use_invariant ps1 ↔
      ¬ (urb_status = STATUS_SUCCESS ∧ submit ≠ 0 ∧
        (INTnsProcessData ps.priv).int_buf.in_use = true) := by
  obtain ⟨hle, hiff⟩ := hinv
  simp only [int_step] at hstep
  split_ifs at hstep with h0
  simp only [Option.some.injEq] at hstep
  subst hstep
  have h1 : ps.outstanding = 1 := by omega
  by_cases hgone : urb_status = -ECONNRESET ∨ urb_status = -ENOENT ∨ urb_status = -ESHUTDOWN
  · have hne : urb_status ≠ STATUS_SUCCESS := by
      rcases hgone with h | h | h <;> rw [h] <;> decide
    simp [in_use_invariant, s_nsInterruptUsbIoCompleteRead, hgone, accepted_urbs, h1, hne]
  · by_cases hok : urb_status = STATUS_SUCCESS
    · subst hok
      have hg : ¬ (STATUS_SUCCESS = -ECONNRESET ∨ STATUS_SUCCESS = -ENOENT ∨
          STATUS_SUCCESS = -ESHUTDOWN) := by decide
      by_cases hs : submit = 0
      · simp [in_use_invariant, s_nsInterruptUsbIoCompleteRead, hg, hs, accepted_urbs, h1]
      · simp [in_use_invariant, s_nsInterruptUsbIoCompleteRead, hg, hs, accepted_urbs, h1]
    · by_cases hs : submit = 0 <;>
        simp [in_use_invariant, s_nsInterruptUsbIoCompleteRead, hgone, hok, hs,
          accepted_urbs, h1]

theorem int_run_keeps_invariant (INTnsProcessData : vnt_private → vnt_private)
    (hproc : ∀ p, (INTnsProcessData p).int_buf.in_use = false) (steps : List IntStep) :
    ∀ ps ps1 : IntPipe, in_use_invariant ps →
      int_run INTnsProcessData ps steps = some ps1 → in_use_invariant ps1 := by
  induction steps with
  | nil =>
    intro ps ps1 hinv hrun
    simp only [int_run, Option.some.injEq] at hrun
    subst hrun
    exact hinv
  | cons c cs ih =>
    intro ps ps1 hinv hrun
    simp only [int_run] at hrun
    cases hstep : int_step INTnsProcessData ps c with
    | none => rw [hstep] at hrun; exact Option.noConfusion hrun
    | some ps2 =>
      rw [hstep] at hrun
      exact ih ps2 ps1 (int_step_keeps_invariant INTnsProcessData hproc ps ps2 c hinv hstep)
        hrun

/-- C24, as stated, fails on the code of the completion routine itself. With an
`INTnsProcessData` that leaves `in_use` as it is, from the state with `in_use`
true and one request outstanding, a completion with status 0 whose resubmission
is rejected leaves `in_use` true with nothing outstanding: the routine clears
`in_use` only for a status other than 0. -/
theorem completion_relies_on_helper :
    in_use_invariant { priv := { int_buf := { in_use := true } }, outstanding := 1 } ∧
    int_step id { priv := { int_buf := { in_use := true } }, outstanding := 1 }
      (IntStep.complete 0 STATUS_FAILURE) =
      some { priv := { int_buf := { in_use := true } }, outstanding := 0 } ∧
    ¬ in_use_invariant { priv := { int_buf := { in_use := true } }, outstanding := 0 } := by
  decide

/-- C24, amended: from a state of the interrupt pipe in which `in_use` is true
exactly when one request is outstanding, `PIPEnsInterruptRead` preserves that for
every value of `usb_submit_urb`; it returns `STATUS_FAILURE` and calls nothing when
`in_use` is already true, and leaves `in_use` false and returns the error when the
submission is rejected. `s_nsInterruptUsbIoCompleteRead` preserves it for every
request status and every outcome of the resubmission except a completion with
status 0 whose resubmission is rejected: there it leaves `in_use` as
`INTnsProcessData` left it, and the invariant is preserved exactly when that is
false. With an `INTnsProcessData` that always leaves `in_use` false the invariant
holds after every sequence of calls and completions, one completion per accepted
submission. -/
theorem in_use_tracks_outstanding_urb (INTnsProcessData : vnt_private → vnt_private)
    (ps : IntPipe) (urb_status submit : Int) (hinv : in_use_invariant ps) :
    (∀ ps1, int_step INTnsProcessData ps (IntStep.read submit) = some ps1 →
      ps1.outstanding ≤ 1 ∧ (ps1.priv.int_buf.in_use = true ↔ ps1.outstanding = 1)) ∧
    (∀ ps1, int_step INTnsProcessData ps (IntStep.complete urb_status submit) = some ps1 →
      ((ps1.outstanding ≤ 1 ∧ (ps1.priv.int_buf.in_use = true ↔ ps1.outstanding = 1)) ↔
        ¬ (urb_status = STATUS_SUCCESS ∧ submit ≠ 0 ∧
          (INTnsProcessData ps.priv).int_buf.in_use = true))) ∧
    ((∀ p, (INTnsProcessData p).int_buf.in_use = false) →
      ∀ (steps : List IntStep) (ps1 : IntPipe),
        int_run INTnsProcessData ps steps = some ps1 →
        ps1.outstanding ≤ 1 ∧ (ps1.priv.int_buf.in_use = true ↔ ps1.outstanding = 1)) ∧
    (ps.priv.int_buf.in_use = true →
      PIPEnsInterruptRead submit ps.priv =
        { ret := STATUS_FAILURE, priv := ps.priv, calls := [] }) ∧
    (ps.priv.int_buf.in_use = false → submit ≠ 0 →
      (PIPEnsInterruptRead submit ps.priv).ret = submit ∧
      (PIPEnsInterruptRead submit ps.priv).priv.int_buf.in_use = false) := by
  refine ⟨?_, ?_, ?_, ?_, ?_⟩
  · intro ps1 hstep
    exact int_read_keeps_invariant INTnsProcessData ps ps1 submit hinv hstep
  · intro ps1 hstep
    exact int_complete_invariant_iff INTnsProcessData ps ps1 urb_status submit hinv hstep
  · intro hproc steps ps1 hrun
    exact int_run_keeps_invariant INTnsProcessData hproc steps ps ps1 hinv hrun
  · intro hu
    simp [PIPEnsInterruptRead, hu]
  · intro hu hs
    simp [PIPEnsInterruptRead, hu, hs]

/-- With a helper that frees the buffer: a read that is accepted, a second read
that is refused, a completion with status 0 that resubmits, a timed-out completion
whose resubmission is rejected, and a rejected read leave nothing outstanding and
`in_use` false. -/
theorem in_use_tracks_outstanding_urb_witness :
    in_use_invariant { priv := { int_buf := { in_use := false } }, outstanding := 0 } ∧
    int_run process_and_free { priv := { int_buf := { in_use := false } }, outstanding := 0 }
      [IntStep.read 0, IntStep.read 0, IntStep.complete 0 0,
        IntStep.complete (-ETIMEDOUT) STATUS_FAILURE, IntStep.read STATUS_FAILURE] =
      some { priv := { int_buf := { in_use := false } }, outstanding := 0 } ∧
    (0 ≤ 1 ∧ (false = true ↔ 0 = 1)) :=
  ⟨by decide, by decide,
    (in_use_tracks_outstanding_urb process_and_free
      { priv := { int_buf := { in_use := false } }, outstanding := 0 } 0 0
      (by decide)).2.2.1 (fun _ => rfl)
      [IntStep.read 0, IntStep.read 0, IntStep.complete 0 0,
        IntStep.complete (-ETIMEDOUT) STATUS_FAILURE, IntStep.read STATUS_FAILURE]
      { priv := { int_buf := { in_use := false } }, outstanding := 0 } (by decide)⟩

end Vt6656
